import Mathlib

/-!
Verification of the simulation core of the Snoopy's Magic Show tile-grid game.

The development shallowly embeds the JavaScript simulation layer:
* `src/tiles/tile-types.js` — the tile enumeration;
* `src/config.js` — the game configuration constants;
* `src/engine/level-manager.js` — the `LevelManager` class (tile grid, pushable
  blocks, toggle blocks, teleport tiles, hidden-item registries);
* `src/entities/entity.js`, `src/entities/ball.js` — the `Entity` base class,
  the `Ball` bounce physics and the `Player` movement state machine;
* `src/engine/entity-manager.js` — `EntityManager.spawnFromData`.

JavaScript numbers are modelled as real numbers; JavaScript `Map` objects keyed
by the string "x,y" are modelled as association lists keyed by the coordinate
pair (the string key is in bijection with the pair for integer coordinates).
Mutation is modelled by explicit state passing: each method becomes a function
from the old state to the new state, returning in addition the method's return
value and the revealed hidden entities (which the JavaScript code hands to the
entity layer).  `Math.random()` draws are passed in as explicit parameters.
All embedded functions are total Lean functions.
-/

namespace Snoopy

/-- The tile enumeration of `src/tiles/tile-types.js` (`TileType`). -/
inductive TileType where
  | EMPTY
  | WALL
  | PUSHABLE
  | BREAKABLE
  | TELEPORT_A
  | TELEPORT_B
  | ARROW_UP
  | ARROW_RIGHT
  | ARROW_DOWN
  | ARROW_LEFT
  | BROKEN
  | PUSHABLE_UP
  | PUSHABLE_DOWN
  | PUSHABLE_LEFT
  | PUSHABLE_RIGHT
  | TOGGLE_BLOCK
  deriving DecidableEq, Repr

/-- Movement directions; the source uses the strings 'up', 'down', 'left',
'right'. -/
inductive Direction where
  | up
  | down
  | left
  | right
  deriving DecidableEq, Repr

/-- Result of `LevelManager.getPushDirection`: the string 'any', one of the four
direction strings, or `null` (modelled as `Option PushRule` at the use site). -/
inductive PushRule where
  | any
  | dir (d : Direction)
  deriving DecidableEq, Repr

namespace CONFIG

/-- `CONFIG.GRID_WIDTH` from `src/config.js`. -/
def GRID_WIDTH : Int := 9

/-- `CONFIG.GRID_HEIGHT` from `src/config.js`. -/
def GRID_HEIGHT : Int := 8

/-- `CONFIG.TILE_SIZE` from `src/config.js`. -/
def TILE_SIZE : ℝ := 32

/-- `CONFIG.GAME_AREA_WIDTH = GRID_WIDTH * TILE_SIZE` from `src/config.js`. -/
def GAME_AREA_WIDTH : ℝ := 9 * 32

/-- `CONFIG.GAME_AREA_HEIGHT = GRID_HEIGHT * TILE_SIZE` from `src/config.js`. -/
def GAME_AREA_HEIGHT : ℝ := 8 * 32

/-- `CONFIG.PLAYER_SPEED` from `src/config.js`. -/
def PLAYER_SPEED : ℝ := 3

/-- `CONFIG.BALL_SPEED` from `src/config.js`. -/
def BALL_SPEED : ℝ := 2

/-- `CONFIG.BALL_SIZE` from `src/config.js`. -/
def BALL_SIZE : ℝ := 8

/-- `CONFIG.BALL_ANGLE_RANDOMNESS = Math.PI / 8` from `src/config.js`. -/
noncomputable def BALL_ANGLE_RANDOMNESS : ℝ := Real.pi / 8

end CONFIG

/-- JavaScript truncating division semantics: `a % b = a - b * trunc(a / b)`
(the sign of the result follows the dividend). -/
noncomputable def jsTrunc (x : ℝ) : Int := if 0 ≤ x then ⌊x⌋ else ⌈x⌉

/-- The JavaScript `%` operator on numbers. -/
noncomputable def jsMod (a b : ℝ) : ℝ := a - b * (jsTrunc (a / b) : ℝ)

/-- An in-flight pushed block (`this.animatingBlocks` entries created in
`LevelManager.tryPushBlock`). -/
structure AnimBlock where
  tileType : TileType
  fromX : Int
  fromY : Int
  toX : Int
  toY : Int
  destX : Int
  destY : Int
  progress : ℝ
  duration : ℝ

/-- A toggle-block state record (`this.toggleBlocks` entries created in
`LevelManager.parseTiles`). -/
structure ToggleBlockState where
  x : Int
  y : Int
  isSolid : Bool
  isTransitioning : Bool
  transitionProgress : ℝ

/-- Hidden-item registries are JavaScript `Map`s keyed by the string
`"x,y"`; for integer coordinates that key determines the pair `(x, y)`, so we
key by the pair.  The hidden `PowerUp`/`Portal` entities themselves live in the
entity layer; the registry stores opaque identifiers for them. -/
abbrev HiddenMap := List ((Int × Int) × Nat)

/-- `Map.prototype.get`: the value of the first (unique) matching key. -/
def mapGet (m : HiddenMap) (k : Int × Int) : Option Nat :=
  (m.find? (fun e => e.1 == k)).map (·.2)

/-- `Map.prototype.set`: replace the value if the key is present, otherwise
append the new entry. -/
def mapSet (m : HiddenMap) (k : Int × Int) (v : Nat) : HiddenMap :=
  if m.any (fun e => e.1 == k) then
    m.map (fun e => if e.1 == k then (k, v) else e)
  else
    m ++ [(k, v)]

/-- `Map.prototype.delete`: remove the entry with the given key. -/
def mapDelete (m : HiddenMap) (k : Int × Int) : HiddenMap :=
  m.filter (fun e => e.1 != k)

/-- The mutable state of a `LevelManager` instance (the fields of its
constructor that the simulation reads and writes). -/
structure LevelState where
  tiles : List (List TileType)
  animatingBlocks : List AnimBlock
  toggleBlocks : List ToggleBlockState
  toggleTimer : ℝ
  toggleCycleDuration : ℝ
  toggleTransitionDuration : ℝ
  hiddenPowerUps : HiddenMap
  hiddenPortals : HiddenMap

/-- The body of `LevelManager.getTileAt(gridX, gridY)` on the stored 2D tile
array: Wall outside the array, otherwise the stored tile.  (The `getD`
defaults are unreachable: the indices are bounds-checked first, exactly as in
the source.) -/
def tileAt (tiles : List (List TileType)) (gridX gridY : Int) : TileType :=
  if gridY < 0 ∨ (tiles.length : Int) ≤ gridY then TileType.WALL
  else if gridX < 0 ∨ ((tiles.getD gridY.toNat []).length : Int) ≤ gridX then
    TileType.WALL
  else (tiles.getD gridY.toNat []).getD gridX.toNat TileType.EMPTY

/-- The body of `LevelManager.setTileAt(gridX, gridY, tileType)` on the stored
2D tile array: no-op outside the array, otherwise overwrite the stored
tile. -/
def setTile (tiles : List (List TileType)) (gridX gridY : Int) (t : TileType) :
    List (List TileType) :=
  if gridY < 0 ∨ (tiles.length : Int) ≤ gridY then tiles
  else if gridX < 0 ∨ ((tiles.getD gridY.toNat []).length : Int) ≤ gridX then
    tiles
  else tiles.set gridY.toNat ((tiles.getD gridY.toNat []).set gridX.toNat t)

namespace LevelState

/-- `LevelManager.getTileAt(gridX, gridY)`. -/
def getTileAt (s : LevelState) (gridX gridY : Int) : TileType :=
  tileAt s.tiles gridX gridY

/-- `LevelManager.setTileAt(gridX, gridY, tileType)`. -/
def setTileAt (s : LevelState) (gridX gridY : Int) (t : TileType) : LevelState :=
  { s with tiles := setTile s.tiles gridX gridY t }

/-- `LevelManager.getToggleBlockAt(gridX, gridY)`
(`this.toggleBlocks.find(...)`). -/
def getToggleBlockAt (s : LevelState) (gridX gridY : Int) : Option ToggleBlockState :=
  s.toggleBlocks.find? (fun b => b.x == gridX && b.y == gridY)

/-- `LevelManager.isSolid(gridX, gridY)`. -/
def isSolid (s : LevelState) (gridX gridY : Int) : Bool :=
  if gridX < 0 ∨ CONFIG.GRID_WIDTH ≤ gridX ∨ gridY < 0 ∨ CONFIG.GRID_HEIGHT ≤ gridY then
    true
  else if s.animatingBlocks.any (fun b => b.destX == gridX && b.destY == gridY) then
    true
  else
    let tile := s.getTileAt gridX gridY
    if tile = TileType.TOGGLE_BLOCK then
      match s.getToggleBlockAt gridX gridY with
      | none => true
      | some tb => tb.isSolid
    else
      decide (tile = TileType.WALL ∨ tile = TileType.PUSHABLE ∨
        tile = TileType.BREAKABLE ∨ tile = TileType.PUSHABLE_UP ∨
        tile = TileType.PUSHABLE_DOWN ∨ tile = TileType.PUSHABLE_LEFT ∨
        tile = TileType.PUSHABLE_RIGHT)

/-- `LevelManager.isPlayerTrappedOnToggleBlock(gridX, gridY)`. -/
def isPlayerTrappedOnToggleBlock (s : LevelState) (gridX gridY : Int) : Bool :=
  if s.getTileAt gridX gridY = TileType.TOGGLE_BLOCK then
    match s.getToggleBlockAt gridX gridY with
    | none => false
    | some tb => tb.isSolid
  else
    false

/-- `LevelManager.isPushable(gridX, gridY)`. -/
def isPushable (s : LevelState) (gridX gridY : Int) : Bool :=
  let tile := s.getTileAt gridX gridY
  decide (tile = TileType.PUSHABLE ∨ tile = TileType.PUSHABLE_UP ∨
    tile = TileType.PUSHABLE_DOWN ∨ tile = TileType.PUSHABLE_LEFT ∨
    tile = TileType.PUSHABLE_RIGHT)

/-- `LevelManager.isInBounds(gridX, gridY)`. -/
def isInBounds (gridX gridY : Int) : Bool :=
  decide (0 ≤ gridX ∧ gridX < CONFIG.GRID_WIDTH ∧ 0 ≤ gridY ∧ gridY < CONFIG.GRID_HEIGHT)

/-- `LevelManager.isAnimating()`. -/
def isAnimating (s : LevelState) : Bool :=
  0 < s.animatingBlocks.length

/-- `LevelManager.getPushDirection(tileType)`: `none` models the `null`
return. -/
def getPushDirection : TileType → Option PushRule
  | TileType.PUSHABLE_UP => some (PushRule.dir Direction.up)
  | TileType.PUSHABLE_DOWN => some (PushRule.dir Direction.down)
  | TileType.PUSHABLE_LEFT => some (PushRule.dir Direction.left)
  | TileType.PUSHABLE_RIGHT => some (PushRule.dir Direction.right)
  | TileType.PUSHABLE => some PushRule.any
  | _ => none

/-- The destination-cell offset of a push (the `switch (direction)` in
`LevelManager.tryPushBlock`). -/
def pushDest (gridX gridY : Int) : Direction → Int × Int
  | Direction.up => (gridX, gridY - 1)
  | Direction.down => (gridX, gridY + 1)
  | Direction.left => (gridX - 1, gridY)
  | Direction.right => (gridX + 1, gridY)

/-- `LevelManager.hidePowerUpInBlock(gridX, gridY, powerUp)`. -/
def hidePowerUpInBlock (s : LevelState) (gridX gridY : Int) (powerUp : Nat) : LevelState :=
  { s with hiddenPowerUps := mapSet s.hiddenPowerUps (gridX, gridY) powerUp }

/-- `LevelManager.revealPowerUpFromBlock(gridX, gridY)`: pop and return the
hidden power-up registered at the cell, or `null`. -/
def revealPowerUpFromBlock (s : LevelState) (gridX gridY : Int) :
    Option Nat × LevelState :=
  match mapGet s.hiddenPowerUps (gridX, gridY) with
  | some powerUp =>
      (some powerUp, { s with hiddenPowerUps := mapDelete s.hiddenPowerUps (gridX, gridY) })
  | none => (none, s)

/-- `LevelManager.hidePortalInBlock(gridX, gridY, portal)`. -/
def hidePortalInBlock (s : LevelState) (gridX gridY : Int) (portal : Nat) : LevelState :=
  { s with hiddenPortals := mapSet s.hiddenPortals (gridX, gridY) portal }

/-- `LevelManager.revealPortalFromBlock(gridX, gridY)`. -/
def revealPortalFromBlock (s : LevelState) (gridX gridY : Int) :
    Option Nat × LevelState :=
  match mapGet s.hiddenPortals (gridX, gridY) with
  | some portal =>
      (some portal, { s with hiddenPortals := mapDelete s.hiddenPortals (gridX, gridY) })
  | none => (none, s)

end LevelState

/-- Result of `LevelManager.tryPushBlock`: the boolean return value, the new
level state, and the hidden entities the method revealed (which the JavaScript
code hands to `powerUp.reveal` / `portal.reveal` in the entity layer). -/
structure PushResult where
  success : Bool
  state : LevelState
  revealedPowerUp : Option Nat
  revealedPortal : Option Nat

namespace LevelState

/-- `LevelManager.tryPushBlock(gridX, gridY, direction, entityManager)`.  The
`entityManager` argument is only forwarded to `powerUp.reveal` and has no
effect on the level state. -/
def tryPushBlock (s : LevelState) (gridX gridY : Int) (direction : Direction) :
    PushResult :=
  let tile := s.getTileAt gridX gridY
  if ¬s.isPushable gridX gridY then
    ⟨false, s, none, none⟩
  else
    let allowedDirection := getPushDirection tile
    if allowedDirection ≠ some PushRule.any ∧
        allowedDirection ≠ some (PushRule.dir direction) then
      ⟨false, s, none, none⟩
    else
      let dest := pushDest gridX gridY direction
      if s.isSolid dest.1 dest.2 ∨ ¬isInBounds dest.1 dest.2 then
        ⟨false, s, none, none⟩
      else
        let s1 := s.setTileAt gridX gridY TileType.EMPTY
        let pr := s1.revealPowerUpFromBlock gridX gridY
        let qr := pr.2.revealPortalFromBlock gridX gridY
        let s4 := { qr.2 with animatingBlocks := qr.2.animatingBlocks ++
          [{ tileType := tile, fromX := gridX, fromY := gridY,
             toX := dest.1, toY := dest.2, destX := dest.1, destY := dest.2,
             progress := 0, duration := 0.2 : AnimBlock }] }
        ⟨true, s4, pr.1, qr.1⟩

/-- The animating-block loop at the top of `LevelManager.update`: each block's
progress advances by `dt / duration`; completed blocks commit a Wall tile at
their destination and are removed.  The source iterates from the last index to
the first and splices completed entries out; since every commit writes the
constant Wall tile and no iteration reads the tile grid, processing the list
front to back is extensionally identical. -/
noncomputable def animStep (dt : ℝ) : List AnimBlock → List (List TileType) →
    List AnimBlock × List (List TileType)
  | [], tiles => ([], tiles)
  | b :: rest, tiles =>
      let p := b.progress + dt / b.duration
      if 1 ≤ p then
        animStep dt rest (setTile tiles b.destX b.destY TileType.WALL)
      else
        let r := animStep dt rest tiles
        ({ b with progress := p } :: r.1, r.2)

/-- The per-block body of the toggle loop in `LevelManager.update`. -/
noncomputable def toggleStep (dt cyclePosition halfCycle transitionDuration : ℝ)
    (playerGridX playerGridY : Int) (tb : ToggleBlockState) : ToggleBlockState :=
  let shouldBeSolid : Bool := decide (cyclePosition < halfCycle)
  let playerOnBlock : Bool := decide (playerGridX = tb.x ∧ playerGridY = tb.y)
  if playerOnBlock && shouldBeSolid && !tb.isSolid then
    { tb with isTransitioning := false, transitionProgress := 0 }
  else
    let tb1 :=
      if shouldBeSolid != tb.isSolid && !tb.isTransitioning then
        { tb with isTransitioning := true, transitionProgress := 0,
                  isSolid := shouldBeSolid }
      else tb
    if tb1.isTransitioning then
      let p := tb1.transitionProgress + dt / transitionDuration
      if 1 ≤ p then { tb1 with isTransitioning := false, transitionProgress := 0 }
      else { tb1 with transitionProgress := p }
    else tb1

end LevelState

/-- The projection of the player that `LevelManager.update(dt, player)`
consults: `player.isMoving`, `player.getGridX()` and `player.getGridY()`. -/
structure PlayerView where
  isMoving : Bool
  gridX : Int
  gridY : Int

namespace LevelState

/-- `LevelManager.update(dt, player)`. -/
noncomputable def update (s : LevelState) (dt : ℝ) (player : Option PlayerView) :
    LevelState :=
  let stepped := animStep dt s.animatingBlocks s.tiles
  let timer := s.toggleTimer + dt
  let s1 := { s with tiles := stepped.2, animatingBlocks := stepped.1,
                     toggleTimer := timer }
  if timer < 0 then s1
  else
    let cyclePosition := jsMod timer s.toggleCycleDuration
    let halfCycle := s.toggleCycleDuration / 2
    let pg : Int × Int :=
      match player with
      | some p => if !p.isMoving then (p.gridX, p.gridY) else (-1, -1)
      | none => (-1, -1)
    let body := toggleStep dt cyclePosition halfCycle s.toggleTransitionDuration pg.1 pg.2
    { s1 with toggleBlocks := s1.toggleBlocks.map body }

/-- Modelled from the spec: `LevelManager.isBlockedByAnimatingBlock` is called
by `Ball.update` in `src/entities/ball.js`, but its definition is not among the
provided sources (only the caller is).  Section 3 of the spec (AnimatingBlock)
states that the destination cell "is treated as solid for all collision
purposes for the lifetime of the animation". -/
def isBlockedByAnimatingBlock (s : LevelState) (gridX gridY : Int) : Bool :=
  s.animatingBlocks.any (fun b => b.destX == gridX && b.destY == gridY)

/-- The row scan inside `LevelManager.findTeleportDestination`: walk the row
left to right, skipping the origin cell, and return the first cell holding the
searched tile type. -/
def scanRow (y : Nat) (fromX fromY : Int) (tileType : TileType) :
    List TileType → Nat → Option (Int × Int)
  | [], _ => none
  | t :: rest, x =>
      if (x : Int) = fromX ∧ (y : Int) = fromY then
        scanRow y fromX fromY tileType rest (x + 1)
      else if t = tileType then
        some ((x : Int), (y : Int))
      else
        scanRow y fromX fromY tileType rest (x + 1)

/-- The row-major scan of `LevelManager.findTeleportDestination`. -/
def scanRows (fromX fromY : Int) (tileType : TileType) :
    List (List TileType) → Nat → Option (Int × Int)
  | [], _ => none
  | row :: rest, y =>
      match scanRow y fromX fromY tileType row 0 with
      | some p => some p
      | none => scanRows fromX fromY tileType rest (y + 1)

/-- `LevelManager.findTeleportDestination(fromX, fromY, tileType)`. -/
def findTeleportDestination (s : LevelState) (fromX fromY : Int)
    (tileType : TileType) : Option (Int × Int) :=
  scanRows fromX fromY tileType s.tiles 0

end LevelState

/-- `Math.atan2(y, x)`: the argument of the complex number `x + y*i`, in
`(-π, π]`, with `atan2(0, 0) = 0`. -/
noncomputable def jsAtan2 (y x : ℝ) : ℝ := Complex.arg ⟨x, y⟩

/-- The two `while` loops of `Ball.calculateBounceAngle` that bring the angle
into `[0, 2π)` by repeatedly adding or subtracting `2π`; their net effect is
subtracting the unique integer multiple of `2π` that lands in `[0, 2π)`. -/
noncomputable def normalizeAngle (angle : ℝ) : ℝ :=
  angle - 2 * Real.pi * (⌊angle / (2 * Real.pi)⌋ : ℝ)

/-- The forbidden-zone clamping of `Ball.calculateBounceAngle` (the four
quadrant branches), applied to the normalized angle. -/
noncomputable def clampAwayFromCardinals (normalizedAngle : ℝ) : ℝ :=
  let minAngleFromHorizontal := Real.pi / 4
  let minAngleFromVertical := Real.pi / 4
  let halfPi := Real.pi / 2
  if 0 ≤ normalizedAngle ∧ normalizedAngle < halfPi then
    if normalizedAngle < minAngleFromHorizontal then minAngleFromHorizontal
    else if halfPi - minAngleFromVertical < normalizedAngle then
      halfPi - minAngleFromVertical
    else normalizedAngle
  else if halfPi ≤ normalizedAngle ∧ normalizedAngle < Real.pi then
    if normalizedAngle < halfPi + minAngleFromVertical then
      halfPi + minAngleFromVertical
    else if Real.pi - minAngleFromHorizontal < normalizedAngle then
      Real.pi - minAngleFromHorizontal
    else normalizedAngle
  else if Real.pi ≤ normalizedAngle ∧ normalizedAngle < Real.pi + halfPi then
    if normalizedAngle < Real.pi + minAngleFromHorizontal then
      Real.pi + minAngleFromHorizontal
    else if Real.pi + halfPi - minAngleFromVertical < normalizedAngle then
      Real.pi + halfPi - minAngleFromVertical
    else normalizedAngle
  else
    if normalizedAngle < Real.pi + halfPi + minAngleFromVertical then
      Real.pi + halfPi + minAngleFromVertical
    else if 2 * Real.pi - minAngleFromHorizontal < normalizedAngle then
      2 * Real.pi - minAngleFromHorizontal
    else normalizedAngle

/-- The angle produced by `Ball.calculateBounceAngle` after normalization and
forbidden-zone clamping, just before the random perturbation is added. -/
noncomputable def correctedBounceAngle (angle : ℝ) : ℝ :=
  clampAwayFromCardinals (normalizeAngle angle)

/-- The angular distance between two angles: the length of the shorter arc
between their residues modulo `2π`. -/
noncomputable def angularDistance (a b : ℝ) : ℝ :=
  min (normalizeAngle (a - b)) (2 * Real.pi - normalizeAngle (a - b))

/-- The Euclidean magnitude of a velocity vector `(vx, vy)`. -/
noncomputable def velocityMagnitude (vx vy : ℝ) : ℝ := Real.sqrt (vx * vx + vy * vy)

/-- The state of a `Ball` instance (`src/entities/ball.js`), including the
`Entity` base fields it uses. -/
structure Ball where
  x : ℝ
  y : ℝ
  width : ℝ
  height : ℝ
  vx : ℝ
  vy : ℝ
  frozen : Bool
  speed : ℝ
  frame : Nat
  isTeleporting : Bool
  teleportTimer : ℝ
  teleportDuration : ℝ
  teleportDestination : Option (Int × Int)
  teleportPhase : Nat
  teleportCooldown : ℝ
  teleportCooldownDuration : ℝ
  isDead : Bool

/-- The `Ball` constructor (`new Ball(gridX, gridY, vx, vy)`), including the
centering offset and the stored constant speed. -/
noncomputable def mkBall (gridX gridY : Int) (vx vy : ℝ) : Ball :=
  let offset := (CONFIG.TILE_SIZE - CONFIG.BALL_SIZE) / 2
  let bvx := vx * CONFIG.BALL_SPEED
  let bvy := vy * CONFIG.BALL_SPEED
  { x := (gridX : ℝ) * CONFIG.TILE_SIZE + offset
    y := (gridY : ℝ) * CONFIG.TILE_SIZE + offset
    width := CONFIG.BALL_SIZE
    height := CONFIG.BALL_SIZE
    vx := bvx
    vy := bvy
    frozen := false
    speed := Real.sqrt (bvx * bvx + bvy * bvy)
    frame := 0
    isTeleporting := false
    teleportTimer := 0
    teleportDuration := 0.8
    teleportDestination := none
    teleportPhase := 0
    teleportCooldown := 0
    teleportCooldownDuration := 1
    isDead := false }

namespace Ball

/-- `Entity.getGridX()` for the ball. -/
noncomputable def getGridX (b : Ball) : Int := ⌊b.x / CONFIG.TILE_SIZE⌋

/-- `Entity.getGridY()` for the ball. -/
noncomputable def getGridY (b : Ball) : Int := ⌊b.y / CONFIG.TILE_SIZE⌋

/-- `Ball.calculateBounceAngle(ballCenter, blockCenter, blockSize,
isHorizontal)`.  The `Math.random()` draw is passed in as `rand ∈ [0, 1]`. -/
noncomputable def calculateBounceAngle (b : Ball) (rand : ℝ)
    (ballCenter blockCenter blockSize : ℝ) (isHorizontal : Bool) : ℝ × ℝ :=
  let offset := (ballCenter - blockCenter) / (blockSize / 2)
  let clampedOffset := max (-0.9) (min 0.9 offset)
  let angle0 := jsAtan2 b.vy b.vx
  let angle1 :=
    if isHorizontal then Real.pi - angle0 + clampedOffset * (Real.pi / 6)
    else -angle0 + clampedOffset * (Real.pi / 6)
  let corrected := correctedBounceAngle angle1
  let randomVariation := (rand - 0.5) * 2 * CONFIG.BALL_ANGLE_RANDOMNESS
  let angle := corrected + randomVariation
  (Real.cos angle * b.speed, Real.sin angle * b.speed)

/-- `Ball.checkTeleportTile(levelManager, game)` (the `game` argument is used
only to play a sound effect). -/
noncomputable def checkTeleportTile (b : Ball) (lm : LevelState) : Ball :=
  if b.isTeleporting || decide (0 < b.teleportCooldown) then b
  else
    let gridX := b.getGridX
    let gridY := b.getGridY
    let tile := lm.getTileAt gridX gridY
    if tile = TileType.TELEPORT_A ∨ tile = TileType.TELEPORT_B then
      match lm.findTeleportDestination gridX gridY tile with
      | some dest =>
          { b with isTeleporting := true, teleportTimer := 0,
                   teleportDestination := some dest, teleportPhase := 0 }
      | none => b
    else b

/-- The teleport-cooldown countdown at the top of `Ball.update`. -/
noncomputable def updateCooldown (b : Ball) (dt : ℝ) : Ball :=
  if 0 < b.teleportCooldown then
    let c := b.teleportCooldown - dt
    { b with teleportCooldown := if c < 0 then 0 else c }
  else b

/-- The `isTeleporting` branch of `Ball.update`: advance the teleport timer,
move the ball at the halfway point, and finish the teleport. -/
noncomputable def updateTeleport (b : Ball) (dt : ℝ) : Ball :=
  let t := b.teleportTimer + dt
  let halfDuration := b.teleportDuration / 2
  let b : Ball := { b with teleportTimer := t }
  let b : Ball :=
    if b.teleportPhase = 0 ∧ halfDuration ≤ b.teleportTimer then
      let offset := (CONFIG.TILE_SIZE - CONFIG.BALL_SIZE) / 2
      match b.teleportDestination with
      | some dest =>
          { b with x := (dest.1 : ℝ) * CONFIG.TILE_SIZE + offset,
                   y := (dest.2 : ℝ) * CONFIG.TILE_SIZE + offset,
                   teleportPhase := 1 }
      | none => { b with teleportPhase := 1 }
    else b
  if b.teleportDuration ≤ b.teleportTimer then
    { b with isTeleporting := false, teleportTimer := 0,
             teleportDestination := none, teleportPhase := 0,
             teleportCooldown := b.teleportCooldownDuration }
  else b

/-- The horizontal collision pass of `Ball.update`, applied to the ball after
the position update. The potential `Math.random()` draw is `randH`. -/
noncomputable def moveH (b : Ball) (lm : LevelState) (randH : ℝ) : Ball :=
  let ballLeft := b.x
  let ballRight := b.x + b.width
  let ballCenterY := b.y + b.height / 2
  if 0 < b.vx then
    if CONFIG.GAME_AREA_WIDTH ≤ ballRight then
      { b with x := CONFIG.GAME_AREA_WIDTH - b.width, vx := -|b.vx| }
    else
      let nextGridX := ⌊ballRight / CONFIG.TILE_SIZE⌋
      let checkGridY := ⌊ballCenterY / CONFIG.TILE_SIZE⌋
      if lm.isSolid nextGridX checkGridY ||
          lm.isBlockedByAnimatingBlock nextGridX checkGridY then
        let b1 := { b with x := (nextGridX : ℝ) * CONFIG.TILE_SIZE - b.width - 1 }
        let blockCenterY := (checkGridY : ℝ) * CONFIG.TILE_SIZE + CONFIG.TILE_SIZE / 2
        let v := b1.calculateBounceAngle randH (b1.y + b1.height / 2)
          blockCenterY CONFIG.TILE_SIZE true
        { b1 with vx := v.1, vy := v.2 }
      else b
  else if b.vx < 0 then
    if ballLeft ≤ 0 then
      { b with x := 0, vx := |b.vx| }
    else
      let nextGridX := ⌊ballLeft / CONFIG.TILE_SIZE⌋
      let checkGridY := ⌊ballCenterY / CONFIG.TILE_SIZE⌋
      if lm.isSolid nextGridX checkGridY ||
          lm.isBlockedByAnimatingBlock nextGridX checkGridY then
        let b1 := { b with x := ((nextGridX : ℝ) + 1) * CONFIG.TILE_SIZE + 1 }
        let blockCenterY := (checkGridY : ℝ) * CONFIG.TILE_SIZE + CONFIG.TILE_SIZE / 2
        let v := b1.calculateBounceAngle randH (b1.y + b1.height / 2)
          blockCenterY CONFIG.TILE_SIZE true
        { b1 with vx := v.1, vy := v.2 }
      else b
  else b

/-- The vertical collision pass of `Ball.update`, applied to the ball after
the horizontal pass. The potential `Math.random()` draw is `randV`. -/
noncomputable def moveV (b : Ball) (lm : LevelState) (randV : ℝ) : Ball :=
  let ballTop := b.y
  let ballBottom := b.y + b.height
  let ballCenterX := b.x + b.width / 2
  if 0 < b.vy then
    if CONFIG.GAME_AREA_HEIGHT ≤ ballBottom then
      { b with y := CONFIG.GAME_AREA_HEIGHT - b.height, vy := -|b.vy| }
    else
      let nextGridY := ⌊ballBottom / CONFIG.TILE_SIZE⌋
      let checkGridX := ⌊ballCenterX / CONFIG.TILE_SIZE⌋
      if lm.isSolid checkGridX nextGridY ||
          lm.isBlockedByAnimatingBlock checkGridX nextGridY then
        let b1 := { b with y := (nextGridY : ℝ) * CONFIG.TILE_SIZE - b.height - 1 }
        let blockCenterX := (checkGridX : ℝ) * CONFIG.TILE_SIZE + CONFIG.TILE_SIZE / 2
        let v := b1.calculateBounceAngle randV (b1.x + b1.width / 2)
          blockCenterX CONFIG.TILE_SIZE false
        { b1 with vx := v.1, vy := v.2 }
      else b
  else if b.vy < 0 then
    if ballTop ≤ 0 then
      { b with y := 0, vy := |b.vy| }
    else
      let nextGridY := ⌊ballTop / CONFIG.TILE_SIZE⌋
      let checkGridX := ⌊ballCenterX / CONFIG.TILE_SIZE⌋
      if lm.isSolid checkGridX nextGridY ||
          lm.isBlockedByAnimatingBlock checkGridX nextGridY then
        let b1 := { b with y := ((nextGridY : ℝ) + 1) * CONFIG.TILE_SIZE + 1 }
        let blockCenterX := (checkGridX : ℝ) * CONFIG.TILE_SIZE + CONFIG.TILE_SIZE / 2
        let v := b1.calculateBounceAngle randV (b1.x + b1.width / 2)
          blockCenterX CONFIG.TILE_SIZE false
        { b1 with vx := v.1, vy := v.2 }
      else b
  else b

/-- `Ball.update(dt, input, levelManager, game)`: the cooldown countdown, then
either the teleport animation, the frozen no-op, or the position update
followed by the horizontal pass, the vertical pass, and the teleport-tile
check.  The two potential `Math.random()` draws of the tick (horizontal and
vertical tile bounce) are passed in as `randH` and `randV`. -/
noncomputable def update (b : Ball) (dt : ℝ) (lm : LevelState) (randH randV : ℝ) :
    Ball :=
  let b : Ball := b.updateCooldown dt
  if b.isTeleporting then b.updateTeleport dt
  else if b.frozen then b
  else
    let b : Ball := { b with x := b.x + b.vx, y := b.y + b.vy }
    (((b.moveH lm randH).moveV lm randV)).checkTeleportTile lm

end Ball

/-- Power-up kinds; the source uses the strings 'speed', 'invincible',
'time'. -/
inductive PowerType where
  | speed
  | invincible
  | time
  deriving DecidableEq, Repr

/-- One step of the player's defeat sprite sequence
(`this.defeatSequence`). -/
structure DefeatStep where
  col : Nat
  row : Nat
  frames : Nat

/-- `this.defeatSequence` from the `Player` constructor. -/
def defeatSequence : List DefeatStep :=
  [⟨4, 0, 1⟩, ⟨1, 0, 1⟩, ⟨4, 0, 1⟩, ⟨1, 0, 1⟩, ⟨7, 1, 1⟩,
   ⟨7, 0, 1⟩, ⟨7, 1, 1⟩, ⟨7, 0, 1⟩, ⟨0, 1, 6⟩, ⟨2, 1, 6⟩]

/-- The keyboard/touch input consulted by the player each tick. -/
structure Input where
  up : Bool
  down : Bool
  left : Bool
  right : Bool
  action : Bool

/-- Calls the player makes into the session layer (`game.loseLife()`) and the
entity layer (`powerUp.reveal(...)` on a revealed hidden power-up). -/
inductive GameEvent where
  | loseLife
  | powerUpRevealed (id : Nat)
  | portalRevealed (id : Nat)
  deriving DecidableEq, Repr

/-- The state of the `Player` instance (`src/entities/ball.js`, `Player`
class), including the `Entity` base fields it uses. -/
structure Player where
  x : ℝ
  y : ℝ
  width : ℝ
  height : ℝ
  speed : ℝ
  vx : ℝ
  vy : ℝ
  targetX : ℝ
  targetY : ℝ
  isMoving : Bool
  isOnArrowTile : Bool
  frame : Nat
  animationTimer : ℝ
  animationSpeed : ℝ
  direction : Direction
  directionIndex : Nat
  hasPowerUp : Bool
  powerUpType : Option PowerType
  powerUpTimer : ℝ
  blinkTimer : ℝ
  hurtTimer : ℝ
  hurtDuration : ℝ
  actionCooldown : ℝ
  previousActionState : Bool
  isTrapped : Bool
  isTeleporting : Bool
  teleportTimer : ℝ
  teleportDuration : ℝ
  teleportDestination : Option (Int × Int)
  teleportPhase : Nat
  isVictorious : Bool
  victoryTimer : ℝ
  victoryDuration : ℝ
  victoryFrame : Nat
  victoryAnimationTimer : ℝ
  victoryAnimationSpeed : ℝ
  isDefeated : Bool
  defeatTimer : ℝ
  defeatFrame : Nat
  defeatAnimationTimer : ℝ
  defeatAnimationSpeed : ℝ
  defeatSequenceIndex : Nat
  defeatFrameCount : Nat
  isDead : Bool

/-- The `Player` constructor (`new Player(x, y)` with pixel coordinates; the
constructor divides by `TILE_SIZE` and the `Entity` base constructor multiplies
back). -/
noncomputable def mkPlayer (x y : ℝ) : Player :=
  { x := x, y := y, width := CONFIG.TILE_SIZE, height := CONFIG.TILE_SIZE
    speed := CONFIG.PLAYER_SPEED, vx := 0, vy := 0, targetX := x, targetY := y
    isMoving := false, isOnArrowTile := false
    frame := 0, animationTimer := 0, animationSpeed := 0.15
    direction := Direction.down, directionIndex := 1
    hasPowerUp := false, powerUpType := none, powerUpTimer := 0, blinkTimer := 0
    hurtTimer := 0, hurtDuration := 0.5
    actionCooldown := 0, previousActionState := false
    isTrapped := false
    isTeleporting := false, teleportTimer := 0, teleportDuration := 0.8
    teleportDestination := none, teleportPhase := 0
    isVictorious := false, victoryTimer := 0, victoryDuration := 3
    victoryFrame := 0, victoryAnimationTimer := 0, victoryAnimationSpeed := 0.2
    isDefeated := false, defeatTimer := 0, defeatFrame := 0
    defeatAnimationTimer := 0, defeatAnimationSpeed := 0.1
    defeatSequenceIndex := 0, defeatFrameCount := 0
    isDead := false }

/-- The result of a player step: the new player, the (possibly mutated) level
state, and the calls made into the session/entity layers. -/
structure PlayerStep where
  player : Player
  level : LevelState
  events : List GameEvent

namespace Player

/-- `Entity.getGridX()` for the player. -/
noncomputable def getGridX (p : Player) : Int := ⌊p.x / CONFIG.TILE_SIZE⌋

/-- `Entity.getGridY()` for the player. -/
noncomputable def getGridY (p : Player) : Int := ⌊p.y / CONFIG.TILE_SIZE⌋

/-- `Player.startMovement(gridX, gridY)`. -/
noncomputable def startMovement (p : Player) (gridX gridY : Int) : Player :=
  let targetX := (gridX : ℝ) * CONFIG.TILE_SIZE
  let targetY := (gridY : ℝ) * CONFIG.TILE_SIZE
  let dx := targetX - p.x
  let dy := targetY - p.y
  let distance := Real.sqrt (dx * dx + dy * dy)
  let p1 : Player := { p with targetX := targetX, targetY := targetY, isMoving := true }
  if 0 < distance then
    { p1 with vx := dx / distance * p.speed, vy := dy / distance * p.speed }
  else p1

/-- `Player.handleInput(input, levelManager)`.  The `if`/`else if` chain over
the four direction keys is modelled by the first matching alternative; when no
key is down, `newGridX === gridX && newGridY === gridY` holds and the method
does nothing. -/
noncomputable def handleInput (p : Player) (input : Input) (lm : LevelState) :
    PlayerStep :=
  if p.isTeleporting then ⟨p, lm, []⟩
  else if p.isTrapped then ⟨p, lm, []⟩
  else
    let gridX := p.getGridX
    let gridY := p.getGridY
    let choice : Option (Int × Int × Direction × Nat) :=
      if input.up then some (gridX, gridY - 1, Direction.up, 0)
      else if input.down then some (gridX, gridY + 1, Direction.down, 1)
      else if input.left then some (gridX - 1, gridY, Direction.left, 2)
      else if input.right then some (gridX + 1, gridY, Direction.right, 3)
      else none
    match choice with
    | none => ⟨p, lm, []⟩
    | some (newGridX, newGridY, dir, dirIndex) =>
        let p1 : Player := { p with direction := dir, directionIndex := dirIndex }
        if lm.isPushable newGridX newGridY then
          let r := lm.tryPushBlock newGridX newGridY p1.direction
          if r.success then
            ⟨p1.startMovement newGridX newGridY, r.state,
              (r.revealedPowerUp.map (fun i => [GameEvent.powerUpRevealed i])).getD [] ++
              (r.revealedPortal.map (fun i => [GameEvent.portalRevealed i])).getD []⟩
          else ⟨p1, r.state, []⟩
        else if ¬lm.isSolid newGridX newGridY then
          ⟨p1.startMovement newGridX newGridY, lm, []⟩
        else ⟨p1, lm, []⟩

/-- `Player.checkTeleportTile(levelManager, game)` (the `game` argument is only
used to play a sound effect). -/
noncomputable def checkTeleportTile (p : Player) (lm : LevelState) : Player :=
  let gridX := p.getGridX
  let gridY := p.getGridY
  let tile := lm.getTileAt gridX gridY
  if tile = TileType.TELEPORT_A ∨ tile = TileType.TELEPORT_B then
    match lm.findTeleportDestination gridX gridY tile with
    | some dest =>
        { p with isTeleporting := true, teleportTimer := 0,
                 teleportDestination := some dest, teleportPhase := 0 }
    | none => p
  else p

/-- `Player.checkArrowTile(levelManager)`. -/
noncomputable def checkArrowTile (p : Player) (lm : LevelState) : Player :=
  let gridX := p.getGridX
  let gridY := p.getGridY
  let tile := lm.getTileAt gridX gridY
  let forced : Option (Int × Int × Direction × Nat) :=
    match tile with
    | TileType.ARROW_UP => some (gridX, gridY - 1, Direction.up, 0)
    | TileType.ARROW_RIGHT => some (gridX + 1, gridY, Direction.right, 3)
    | TileType.ARROW_DOWN => some (gridX, gridY + 1, Direction.down, 1)
    | TileType.ARROW_LEFT => some (gridX - 1, gridY, Direction.left, 2)
    | _ => none
  match forced with
  | none => p
  | some (forcedX, forcedY, dir, dirIndex) =>
      if ¬lm.isSolid forcedX forcedY then
        let p1 : Player := { p with direction := dir, directionIndex := dirIndex }
        p1.startMovement forcedX forcedY
      else p

/-- `Player.updateMovement(dt, levelManager)`.  (The source's
`checkTeleportTile(levelManager, game)` call resolves `game` through the
`window.game` global set in `main.js`; it is only used for a sound effect.) -/
noncomputable def updateMovement (p : Player) (lm : LevelState) : Player :=
  let moveAmount := p.speed
  let dx := p.targetX - p.x
  let dy := p.targetY - p.y
  let distance := Real.sqrt (dx * dx + dy * dy)
  if distance ≤ moveAmount then
    let p1 : Player := { p with x := p.targetX, y := p.targetY,
                                isMoving := false, vx := 0, vy := 0 }
    let p2 := p1.checkTeleportTile lm
    p2.checkArrowTile lm
  else
    { p with x := p.x + p.vx, y := p.y + p.vy }

/-- `Player.performAction(levelManager, game)`: break the breakable tile ahead
of the facing direction; reveal a hidden power-up from it only when `game` is
non-null. -/
noncomputable def performAction (p : Player) (lm : LevelState) (hasGame : Bool) :
    LevelState × List GameEvent :=
  let target : Int × Int :=
    match p.direction with
    | Direction.up => (p.getGridX, p.getGridY - 1)
    | Direction.down => (p.getGridX, p.getGridY + 1)
    | Direction.left => (p.getGridX - 1, p.getGridY)
    | Direction.right => (p.getGridX + 1, p.getGridY)
  let tile := lm.getTileAt target.1 target.2
  if tile = TileType.BREAKABLE then
    let lm1 := lm.setTileAt target.1 target.2 TileType.BROKEN
    if hasGame then
      let r := lm1.revealPowerUpFromBlock target.1 target.2
      (r.2, (r.1.map (fun i => [GameEvent.powerUpRevealed i])).getD [])
    else (lm1, [])
  else (lm, [])

/-- `Player.removePowerUp(game)` (the music handling acts only on the audio
layer). -/
noncomputable def removePowerUp (p : Player) : Player :=
  { p with hasPowerUp := false, powerUpType := none, speed := CONFIG.PLAYER_SPEED }

/-- The grid-movement section of `Player.update`: arrow-tile check and input
handling when idle, movement interpolation otherwise. -/
noncomputable def updateMovementStage (p0 : Player) (input : Input)
    (lm : LevelState) : PlayerStep :=
  if ¬p0.isMoving then
    let pa := p0.checkArrowTile lm
    if ¬pa.isMoving then pa.handleInput input lm
    else ⟨pa, lm, []⟩
  else ⟨p0.updateMovement lm, lm, []⟩

/-- The action-button section of `Player.update`: edge detection, cooldown
check, `performAction` and the 300 ms cooldown reset. -/
noncomputable def updateActionStage (input : Input) (hasGame : Bool)
    (p1 : Player) (lm1 : LevelState) : PlayerStep :=
  let actionJustPressed := input.action && !p1.previousActionState
  let p2 : Player := { p1 with previousActionState := input.action }
  if actionJustPressed && decide (p2.actionCooldown ≤ 0) then
    let r := p2.performAction lm1 hasGame
    ⟨{ p2 with actionCooldown := 0.3 }, r.1, r.2⟩
  else ⟨p2, lm1, []⟩

/-- The trailing timer/animation section of `Player.update`: hurt timer,
action cooldown, power-up timer and walk-cycle animation. -/
noncomputable def updateTimersStage (dt : ℝ) (p3 : Player) : Player :=
  let p4 : Player :=
    if 0 < p3.hurtTimer then
      let h := p3.hurtTimer - dt
      { p3 with hurtTimer := if h < 0 then 0 else h }
    else p3
  let p5 : Player :=
    if 0 < p4.actionCooldown then
      { p4 with actionCooldown := p4.actionCooldown - dt }
    else p4
  let p6 : Player :=
    if p5.hasPowerUp then
      let pp : Player := { p5 with powerUpTimer := p5.powerUpTimer - dt,
                                   blinkTimer := p5.blinkTimer + dt }
      if pp.powerUpTimer ≤ 0 then pp.removePowerUp else pp
    else p5
  if p6.isMoving && decide (p6.hurtTimer = 0) then
    let t := p6.animationTimer + dt
    if p6.animationSpeed ≤ t then
      { p6 with frame := (p6.frame + 1) % 3, animationTimer := 0 }
    else { p6 with animationTimer := t }
  else if p6.hurtTimer = 0 then { p6 with frame := 0 }
  else p6

/-- `Player.update(dt, input, levelManager, game)`.  `hasGame` models whether
the `game` argument is non-null. -/
noncomputable def update (p : Player) (dt : ℝ) (input : Input) (lm : LevelState)
    (hasGame : Bool) : PlayerStep :=
  if p.isDefeated then
    let p1 : Player := { p with defeatTimer := p.defeatTimer + dt,
                                defeatAnimationTimer := p.defeatAnimationTimer + dt }
    if p1.defeatAnimationSpeed ≤ p1.defeatAnimationTimer then
      let fc := p1.defeatFrameCount + 1
      -- `this.defeatSequence[this.defeatSequenceIndex]` is `undefined` past the
      -- end; the JavaScript comparison `fc >= undefined.frames` would throw,
      -- but the completed branch always returns first, so the index stays in
      -- range while `isDefeated` holds.  Out of range we model the comparison
      -- as not taken.
      match defeatSequence.get? p1.defeatSequenceIndex with
      | some currentSequence =>
          if currentSequence.frames ≤ fc then
            let idx := p1.defeatSequenceIndex + 1
            if defeatSequence.length ≤ idx then
              ⟨{ p1 with defeatFrameCount := 0, defeatSequenceIndex := idx }, lm,
                if hasGame then [GameEvent.loseLife] else []⟩
            else
              ⟨{ p1 with defeatFrameCount := 0, defeatSequenceIndex := idx,
                         defeatAnimationTimer := 0 }, lm, []⟩
          else
            ⟨{ p1 with defeatFrameCount := fc, defeatAnimationTimer := 0 }, lm, []⟩
      | none => ⟨{ p1 with defeatFrameCount := fc, defeatAnimationTimer := 0 }, lm, []⟩
    else ⟨p1, lm, []⟩
  else if p.isVictorious then
    let p1 : Player := { p with victoryTimer := p.victoryTimer + dt,
                                victoryAnimationTimer := p.victoryAnimationTimer + dt }
    if p1.victoryAnimationSpeed ≤ p1.victoryAnimationTimer then
      ⟨{ p1 with victoryFrame := (p1.victoryFrame + 1) % 2,
                 victoryAnimationTimer := 0 }, lm, []⟩
    else ⟨p1, lm, []⟩
  else if p.isTeleporting then
    let p1 : Player := { p with teleportTimer := p.teleportTimer + dt }
    let halfDuration := p1.teleportDuration / 2
    let p2 : Player :=
      if p1.teleportPhase = 0 ∧ halfDuration ≤ p1.teleportTimer then
        match p1.teleportDestination with
        | some dest =>
            let nx := (dest.1 : ℝ) * CONFIG.TILE_SIZE
            let ny := (dest.2 : ℝ) * CONFIG.TILE_SIZE
            { p1 with x := nx, y := ny, targetX := nx, targetY := ny,
                      teleportPhase := 1 }
        | none => { p1 with teleportPhase := 1 }
      else p1
    if p2.teleportDuration ≤ p2.teleportTimer then
      ⟨{ p2 with isTeleporting := false, teleportTimer := 0,
                 teleportDestination := none, teleportPhase := 0 }, lm, []⟩
    else ⟨p2, lm, []⟩
  else
    let p0 : Player :=
      { p with isTrapped := lm.isPlayerTrappedOnToggleBlock p.getGridX p.getGridY }
    let moved := updateMovementStage p0 input lm
    let acted := updateActionStage input hasGame moved.player moved.level
    ⟨updateTimersStage dt acted.player, acted.level, moved.events ++ acted.events⟩

end Player

/-- An entity as added to `EntityManager.entities` by `spawnFromData` (the
fields of the respective constructors that identify the spawn; the power-up's
custom reveal targets are opaque to the claims and omitted). -/
inductive Spawned where
  | ball (b : Ball)
  | woodstock (gridX gridY : Int)
  | powerup (gridX gridY : Int) (powerType : PowerType) (hidden : Bool)
  | portal (gridX gridY destX destY : Int) (hidden : Bool)

/-- A record of the level-data `entities` array
(`{type, x, y, ...type-specific fields}`); `Option` models fields that may be
`undefined`.  `kind` is the `data.type` string; `other` stands for any string
not handled by the `switch` (which then adds nothing). -/
inductive EntityKind where
  | ball
  | woodstock
  | powerup
  | portal
  | other
  deriving DecidableEq, Repr

/-- A level-data entity record. -/
structure EntityData where
  kind : EntityKind
  x : Int
  y : Int
  vx : Option Int
  vy : Option Int
  powerType : Option PowerType
  hidden : Option Bool
  blockX : Option Int
  blockY : Option Int
  destinationX : Option Int
  destinationY : Option Int

/-- JavaScript `v || d` on an optional number: `undefined` and `0` are both
falsy. -/
def jsOrInt (v : Option Int) (d : Int) : Int :=
  match v with
  | none => d
  | some n => if n = 0 then d else n

/-- The tiles on which `EntityManager.spawnFromData` accepts a woodstock
spawn. -/
def woodstockTileAllowed (tile : TileType) : Bool :=
  decide (tile = TileType.EMPTY ∨ tile = TileType.ARROW_UP ∨
    tile = TileType.ARROW_DOWN ∨ tile = TileType.ARROW_LEFT ∨
    tile = TileType.ARROW_RIGHT ∨ tile = TileType.TELEPORT_A ∨
    tile = TileType.TELEPORT_B ∨ tile = TileType.TOGGLE_BLOCK)

/-- `EntityManager.spawnFromData(data, levelManager)`.  `newId` models the
identity of the freshly constructed `PowerUp`/`Portal` object as registered in
the hidden-item maps; `lm = none` models a null `levelManager` argument.
Returns the new entity list and the (possibly mutated) level state. -/
noncomputable def spawnFromData (entities : List Spawned) (data : EntityData)
    (lm : Option LevelState) (newId : Nat) : List Spawned × Option LevelState :=
  match data.kind with
  | EntityKind.ball =>
      (entities ++ [Spawned.ball
        (mkBall data.x data.y (jsOrInt data.vx 1 : Int) (jsOrInt data.vy 1 : Int))], lm)
  | EntityKind.woodstock =>
      match lm with
      | some l =>
          if ¬woodstockTileAllowed (l.getTileAt data.x data.y) then
            (entities, lm)
          else (entities ++ [Spawned.woodstock data.x data.y], lm)
      | none => (entities ++ [Spawned.woodstock data.x data.y], lm)
  | EntityKind.powerup =>
      let hidden := data.hidden.getD false
      let es := entities ++
        [Spawned.powerup data.x data.y (data.powerType.getD PowerType.speed) hidden]
      if hidden ∧ data.blockX.isSome ∧ data.blockY.isSome ∧ lm.isSome then
        (es, lm.map (fun l =>
          l.hidePowerUpInBlock (data.blockX.getD 0) (data.blockY.getD 0) newId))
      else (es, lm)
  | EntityKind.portal =>
      let portalHidden := data.hidden.getD false
      match data.destinationX, data.destinationY with
      | some destX, some destY =>
          let es := entities ++
            [Spawned.portal data.x data.y destX destY portalHidden]
          if portalHidden ∧ data.blockX.isSome ∧ data.blockY.isSome ∧ lm.isSome then
            (es, lm.map (fun l =>
              l.hidePortalInBlock (data.blockX.getD 0) (data.blockY.getD 0) newId))
          else (es, lm)
      | _, _ => (entities, lm)
  | EntityKind.other => (entities, lm)

/-- Whether a spawned entity has `type === 'woodstock'`. -/
def isWoodstock : Spawned → Bool
  | Spawned.woodstock _ _ => true
  | _ => false

/-- The collectible count consulted by `Game.checkGameState()`
(`this.entityManager.getByType('woodstock').length`); the victory sequence
starts exactly when it reaches zero. -/
def woodstockCount (entities : List Spawned) : Nat :=
  (entities.filter isWoodstock).length

/-- The positions of a row's cells holding the given tile type, in the
left-to-right order of `findTeleportDestination`'s scan. -/
def occRow (y : Nat) (tileType : TileType) : List TileType → Nat → List (Int × Int)
  | [], _ => []
  | t :: rest, x =>
      if t = tileType then ((x : Int), (y : Int)) :: occRow y tileType rest (x + 1)
      else occRow y tileType rest (x + 1)

/-- All positions of the given tile type in the grid, in the row-major order
of `findTeleportDestination`'s scan. -/
def occGrid (tileType : TileType) : List (List TileType) → Nat → List (Int × Int)
  | [], _ => []
  | row :: rest, y => occRow y tileType row 0 ++ occGrid tileType rest (y + 1)

/-- Concrete tile grid for the teleport witness: two TeleportA tiles at
`(1, 0)` and `(3, 2)`, and a lone TeleportB tile at `(5, 5)`. -/
def wTeleGrid : List (List TileType) :=
  [[TileType.EMPTY, TileType.TELEPORT_A] ++ List.replicate 7 TileType.EMPTY,
   List.replicate 9 TileType.EMPTY,
   [TileType.EMPTY, TileType.EMPTY, TileType.EMPTY, TileType.TELEPORT_A] ++
     List.replicate 5 TileType.EMPTY,
   List.replicate 9 TileType.EMPTY,
   List.replicate 9 TileType.EMPTY,
   List.replicate 5 TileType.EMPTY ++ [TileType.TELEPORT_B] ++
     List.replicate 3 TileType.EMPTY,
   List.replicate 9 TileType.EMPTY,
   List.replicate 9 TileType.EMPTY]

/-- A level state with the constructor defaults of `LevelManager` and the
teleport witness grid. -/
noncomputable def wTeleState : LevelState :=
  { tiles := wTeleGrid, animatingBlocks := [], toggleBlocks := [],
    toggleTimer := -0.1, toggleCycleDuration := 14,
    toggleTransitionDuration := 0.4, hiddenPowerUps := [], hiddenPortals := [] }

/-- Concrete tile grid with a Breakable tile at `(3, 2)`. -/
def c9Grid : List (List TileType) :=
  List.replicate 2 (List.replicate 9 TileType.EMPTY) ++
  [[TileType.EMPTY, TileType.EMPTY, TileType.EMPTY, TileType.BREAKABLE] ++
    List.replicate 5 TileType.EMPTY] ++
  List.replicate 5 (List.replicate 9 TileType.EMPTY)

/-- A level state whose Breakable tile at `(3, 2)` covers a hidden portal
(registered under id 7). -/
noncomputable def c9State : LevelState :=
  { tiles := c9Grid, animatingBlocks := [], toggleBlocks := [],
    toggleTimer := -0.1, toggleCycleDuration := 14,
    toggleTransitionDuration := 0.4, hiddenPowerUps := [],
    hiddenPortals := [((3, 2), 7)] }

/-- A player standing at grid cell `(2, 2)` facing right (toward the Breakable
tile at `(3, 2)`). -/
noncomputable def c9Player : Player :=
  { mkPlayer 64 64 with direction := Direction.right }

/-- Concrete tile grid with a generic Pushable block at `(3, 3)`. -/
def pushGrid : List (List TileType) :=
  List.replicate 3 (List.replicate 9 TileType.EMPTY) ++
  [[TileType.EMPTY, TileType.EMPTY, TileType.EMPTY, TileType.PUSHABLE] ++
    List.replicate 5 TileType.EMPTY] ++
  List.replicate 4 (List.replicate 9 TileType.EMPTY)

/-- A level state whose Pushable block at `(3, 3)` covers a hidden power-up
(id 4) and a hidden portal (id 9). -/
noncomputable def pushState : LevelState :=
  { tiles := pushGrid, animatingBlocks := [], toggleBlocks := [],
    toggleTimer := -0.1, toggleCycleDuration := 14,
    toggleTransitionDuration := 0.4, hiddenPowerUps := [((3, 3), 4)],
    hiddenPortals := [((3, 3), 9)] }

/-- Concrete tile grid with a ToggleBlock at `(2, 2)`. -/
def c5Grid : List (List TileType) :=
  List.replicate 2 (List.replicate 9 TileType.EMPTY) ++
  [[TileType.EMPTY, TileType.EMPTY, TileType.TOGGLE_BLOCK] ++
    List.replicate 6 TileType.EMPTY] ++
  List.replicate 5 (List.replicate 9 TileType.EMPTY)

/-- A level state whose ToggleBlock at `(2, 2)` is currently passable, with the
global toggle timer at the start of the solid phase of the cycle. -/
noncomputable def c5State : LevelState :=
  { tiles := c5Grid, animatingBlocks := [],
    toggleBlocks := [⟨2, 2, false, false, 0⟩],
    toggleTimer := 0, toggleCycleDuration := 14,
    toggleTransitionDuration := 0.4, hiddenPowerUps := [], hiddenPortals := [] }

/-- A level state whose ToggleBlock at `(2, 2)` is currently solid. -/
noncomputable def c6State : LevelState :=
  { tiles := c5Grid, animatingBlocks := [],
    toggleBlocks := [⟨2, 2, true, false, 0⟩],
    toggleTimer := 3, toggleCycleDuration := 14,
    toggleTransitionDuration := 0.4, hiddenPowerUps := [], hiddenPortals := [] }

/-- A concrete ball with velocity `(3, 4)` and stored speed `5`. -/
noncomputable def c3Ball : Ball :=
  { x := 40, y := 40, width := CONFIG.BALL_SIZE, height := CONFIG.BALL_SIZE,
    vx := 3, vy := 4, frozen := false, speed := 5, frame := 0,
    isTeleporting := false, teleportTimer := 0, teleportDuration := 0.8,
    teleportDestination := none, teleportPhase := 0, teleportCooldown := 0,
    teleportCooldownDuration := 1, isDead := false }

/-- The animating block enqueued by the witness push on `pushState`. -/
noncomputable def pushBlockRec : AnimBlock :=
  { tileType := pushState.getTileAt 3 3, fromX := 3, fromY := 3,
    toX := 4, toY := 3, destX := 4, destY := 3, progress := 0, duration := 0.2 }

/-- Concrete tile grid for witnesses: all Empty except a Wall at `(4, 3)`. -/
def wGrid : List (List TileType) :=
  (List.replicate 3 (List.replicate 9 TileType.EMPTY)) ++
  [List.replicate 4 TileType.EMPTY ++ [TileType.WALL] ++ List.replicate 4 TileType.EMPTY] ++
  (List.replicate 4 (List.replicate 9 TileType.EMPTY))

/-- A level state with the constructor defaults of `LevelManager` and the
witness grid. -/
noncomputable def wState : LevelState :=
  { tiles := wGrid, animatingBlocks := [], toggleBlocks := [],
    toggleTimer := -0.1, toggleCycleDuration := 14,
    toggleTransitionDuration := 0.4, hiddenPowerUps := [], hiddenPortals := [] }

/-- Level-data record for the witness: a woodstock placed on the Wall cell
`(4, 3)` of the witness grid. -/
def wWoodstockData : EntityData :=
  { kind := EntityKind.woodstock, x := 4, y := 3, vx := none, vy := none,
    powerType := none, hidden := none, blockX := none, blockY := none,
    destinationX := none, destinationY := none }

/-- Level-data record for the witness: a portal with `destinationX`
undefined. -/
def wPortalData : EntityData :=
  { kind := EntityKind.portal, x := 1, y := 1, vx := none, vy := none,
    powerType := none, hidden := none, blockX := none, blockY := none,
    destinationX := none, destinationY := some 5 }

/-! ### Basic facts about the tile grid queries -/

lemma tileAt_wall_of_out (tiles : List (List TileType)) (W H : Int)
    (hH : (tiles.length : Int) = H) (hW : ∀ row ∈ tiles, (row.length : Int) = W)
    (x y : Int) (h : ¬(0 ≤ x ∧ x < W ∧ 0 ≤ y ∧ y < H)) :
    tileAt tiles x y = TileType.WALL := by
  unfold tileAt
  by_cases hy : y < 0 ∨ (tiles.length : Int) ≤ y
  · rw [if_pos hy]
  · rw [if_neg hy]
    push_neg at hy
    have hylt : y.toNat < tiles.length := by omega
    have hrowmem : tiles.getD y.toNat [] ∈ tiles := by
      rw [List.getD_eq_getElem tiles [] hylt]
      exact List.getElem_mem hylt
    have hrowlen : ((tiles.getD y.toNat []).length : Int) = W := hW _ hrowmem
    have hx : x < 0 ∨ ((tiles.getD y.toNat []).length : Int) ≤ x := by
      rw [hrowlen]; omega
    rw [if_pos hx]

lemma tileAt_stored (tiles : List (List TileType)) (x y : Int)
    (row : List TileType) (t : TileType)
    (hx : 0 ≤ x) (hy : 0 ≤ y)
    (hrow : tiles[y.toNat]? = some row) (ht : row[x.toNat]? = some t) :
    tileAt tiles x y = t := by
  have hylt : y.toNat < tiles.length := (List.getElem?_eq_some.mp hrow).choose
  have hxlt : x.toNat < row.length := (List.getElem?_eq_some.mp ht).choose
  have hgetrow : tiles.getD y.toNat [] = row := by
    simp [List.getD, List.get?_eq_getElem?, hrow]
  unfold tileAt
  rw [if_neg (by omega), hgetrow, if_neg (by omega)]
  simp [List.getD, List.get?_eq_getElem?, ht]

lemma isSolid_true_of_out (s : LevelState) (x y : Int)
    (h : ¬(0 ≤ x ∧ x < CONFIG.GRID_WIDTH ∧ 0 ≤ y ∧ y < CONFIG.GRID_HEIGHT)) :
    s.isSolid x y = true := by
  unfold LevelState.isSolid
  rw [if_pos (by omega)]

/-- Claim C7: for every coordinate `(x, y)` outside
`[0, GRID_WIDTH) × [0, GRID_HEIGHT)` (with `GRID_WIDTH = 9`,
`GRID_HEIGHT = 8`), `isSolid (x, y)` returns `true`, and `getTileAt (x, y)`
returns the Wall tile for any out-of-grid coordinate; inside the grid,
`getTileAt` returns the stored tile. -/
theorem C7_boundary_solidity (s : LevelState) (x y : Int)
    (hH : (s.tiles.length : Int) = CONFIG.GRID_HEIGHT)
    (hW : ∀ row ∈ s.tiles, (row.length : Int) = CONFIG.GRID_WIDTH) :
    (¬(0 ≤ x ∧ x < CONFIG.GRID_WIDTH ∧ 0 ≤ y ∧ y < CONFIG.GRID_HEIGHT) →
      s.isSolid x y = true ∧ s.getTileAt x y = TileType.WALL) ∧
    (∀ (row : List TileType) (t : TileType), 0 ≤ x → 0 ≤ y →
      s.tiles[y.toNat]? = some row → row[x.toNat]? = some t →
      s.getTileAt x y = t) := by
  constructor
  · intro h
    exact ⟨isSolid_true_of_out s x y h,
      tileAt_wall_of_out s.tiles CONFIG.GRID_WIDTH CONFIG.GRID_HEIGHT hH hW x y h⟩
  · intro row t hx hy hrow ht
    exact tileAt_stored s.tiles x y row t hx hy hrow ht

/-- Witness for C7 at the concrete grid: the out-of-grid coordinate `(-1, 2)`
is solid and reads Wall, and the stored Wall at `(4, 3)` is returned. -/
theorem C7_boundary_solidity_witness :
    (wState.isSolid (-1) 2 = true ∧ wState.getTileAt (-1) 2 = TileType.WALL) ∧
    wState.getTileAt 4 3 = TileType.WALL := by
  have h := C7_boundary_solidity wState (-1) 2 (by decide)
    (by intro row hrow; fin_cases hrow <;> decide)
  have h2 := C7_boundary_solidity wState 4 3 (by decide)
    (by intro row hrow; fin_cases hrow <;> decide)
  refine ⟨h.1 (by decide), ?_⟩
  exact h2.2 (List.replicate 4 TileType.EMPTY ++ [TileType.WALL] ++
    List.replicate 4 TileType.EMPTY) TileType.WALL (by decide) (by decide)
    (by decide) (by decide)

/-- A push that reports failure leaves the level state untouched: the
failing branches of `tryPushBlock` return before any mutation. -/
lemma tryPushBlock_fail_eq (s : LevelState) (x y : Int) (d : Direction)
    (hfail : (s.tryPushBlock x y d).success = false) :
    s.tryPushBlock x y d = ⟨false, s, none, none⟩ := by
  simp only [LevelState.tryPushBlock] at hfail ⊢
  by_cases h1 : ¬s.isPushable x y = true
  · rw [if_pos h1]
  · rw [if_neg h1] at hfail ⊢
    by_cases h2 : LevelState.getPushDirection (s.getTileAt x y) ≠ some PushRule.any ∧
        LevelState.getPushDirection (s.getTileAt x y) ≠ some (PushRule.dir d)
    · rw [if_pos h2]
    · rw [if_neg h2] at hfail ⊢
      by_cases h3 : s.isSolid (LevelState.pushDest x y d).1 (LevelState.pushDest x y d).2 = true ∨
          ¬LevelState.isInBounds (LevelState.pushDest x y d).1 (LevelState.pushDest x y d).2 = true
      · rw [if_pos h3]
      · rw [if_neg h3] at hfail
        simp at hfail

/-- Claim C2: the simulation core's queries return the safe default (solid /
Wall) on every out-of-range coordinate instead of failing, out-of-range
mutations are no-ops, and a failed push is a no-op; the embedded per-tick
update functions `LevelState.update`, `Player.update` (with
`Player.updateMovement`) and `Ball.update` are total Lean functions, so no
tick has a fatal error path. -/
theorem C2_no_fatal_error_path (s : LevelState) (x y : Int) (t : TileType)
    (d : Direction) :
    (¬(0 ≤ x ∧ x < CONFIG.GRID_WIDTH ∧ 0 ≤ y ∧ y < CONFIG.GRID_HEIGHT) →
      s.isSolid x y = true) ∧
    ((y < 0 ∨ (s.tiles.length : Int) ≤ y ∨ x < 0 ∨
        ((s.tiles.getD y.toNat []).length : Int) ≤ x) →
      s.getTileAt x y = TileType.WALL ∧ s.setTileAt x y t = s) ∧
    ((s.tryPushBlock x y d).success = false → (s.tryPushBlock x y d).state = s) := by
  refine ⟨isSolid_true_of_out s x y, ?_, ?_⟩
  · intro h
    by_cases hy : y < 0 ∨ (s.tiles.length : Int) ≤ y
    · constructor
      · unfold LevelState.getTileAt tileAt
        rw [if_pos hy]
      · unfold LevelState.setTileAt setTile
        rw [if_pos hy]
    · have hx : x < 0 ∨ ((s.tiles.getD y.toNat []).length : Int) ≤ x := by
        rcases h with h | h | h | h
        · exact absurd (Or.inl h) hy
        · exact absurd (Or.inr h) hy
        · exact Or.inl h
        · exact Or.inr h
      constructor
      · unfold LevelState.getTileAt tileAt
        rw [if_neg hy, if_pos hx]
      · unfold LevelState.setTileAt setTile
        rw [if_neg hy, if_pos hx]
  · intro hfail
    rw [tryPushBlock_fail_eq s x y d hfail]

/-- Witness for C2: concrete out-of-range queries on the witness state return
the safe defaults, and a failed push (empty source cell) is a no-op. -/
theorem C2_no_fatal_error_path_witness :
    wState.isSolid 9 0 = true ∧
    (wState.getTileAt 0 8 = TileType.WALL ∧
      wState.setTileAt 0 8 TileType.WALL = wState) ∧
    (wState.tryPushBlock 0 0 Direction.up).state = wState := by
  have h1 := C2_no_fatal_error_path wState 9 0 TileType.WALL Direction.up
  have h2 := C2_no_fatal_error_path wState 0 8 TileType.WALL Direction.up
  have h3 := C2_no_fatal_error_path wState 0 0 TileType.WALL Direction.up
  exact ⟨h1.1 (by decide), h2.2.1 (by decide), h3.2.2 (by decide)⟩

/-- Claim C10: `EntityManager.spawnFromData` silently refuses to spawn a
woodstock whose cell holds any tile other than Empty, an arrow tile, a
teleport tile or a ToggleBlock, and refuses a portal record whose
`destinationX` or `destinationY` is undefined; in both cases the entity list
and the level state are left unchanged (no error is raised), and the refused
woodstock is missing from the collectible count whose reaching zero triggers
level completion in `Game.checkGameState`. -/
theorem C10_spawn_validation (es : List Spawned) (data : EntityData)
    (l : LevelState) (newId : Nat) :
    (data.kind = EntityKind.woodstock →
      woodstockTileAllowed (l.getTileAt data.x data.y) = false →
      spawnFromData es data (some l) newId = (es, some l)) ∧
    (data.kind = EntityKind.portal →
      (data.destinationX = none ∨ data.destinationY = none) →
      spawnFromData es data (some l) newId = (es, some l)) ∧
    (data.kind = EntityKind.woodstock →
      woodstockTileAllowed (l.getTileAt data.x data.y) = true →
      (spawnFromData es data (some l) newId).1 =
        es ++ [Spawned.woodstock data.x data.y]) ∧
    (data.kind = EntityKind.woodstock →
      woodstockTileAllowed (l.getTileAt data.x data.y) = false →
      woodstockCount (spawnFromData es data (some l) newId).1 =
        woodstockCount es) := by
  refine ⟨?_, ?_, ?_, ?_⟩
  · intro hk hrefuse
    simp [spawnFromData, hk, hrefuse]
  · intro hk hdest
    rcases hdest with h | h <;> simp [spawnFromData, hk, h]
  · intro hk hallow
    simp [spawnFromData, hk, hallow]
  · intro hk hrefuse
    simp [spawnFromData, hk, hrefuse]

/-- Witness for C10: both refused spawns leave the entity list and level state
unchanged on concrete data. -/
theorem C10_spawn_validation_witness :
    woodstockTileAllowed (wState.getTileAt 4 3) = false ∧
    spawnFromData [] wWoodstockData (some wState) 0 = ([], some wState) ∧
    spawnFromData [] wPortalData (some wState) 0 = ([], some wState) := by
  have h1 := C10_spawn_validation [] wWoodstockData wState 0
  have h2 := C10_spawn_validation [] wPortalData wState 0
  exact ⟨by decide, h1.1 rfl (by decide), h2.2.1 rfl (Or.inl rfl)⟩

/-! ### The teleport scan as a first-match search -/

lemma scanRow_eq_filter (y : Nat) (fromX fromY : Int) (tt : TileType)
    (row : List TileType) (x : Nat) :
    LevelState.scanRow y fromX fromY tt row x =
      ((occRow y tt row x).filter
        (fun p => !decide (p.1 = fromX ∧ p.2 = fromY))).head? := by
  induction row generalizing x with
  | nil => rfl
  | cons t rest ih =>
      by_cases hskip : (x : Int) = fromX ∧ (y : Int) = fromY
      · by_cases ht : t = tt <;>
          simp [LevelState.scanRow, occRow, hskip, ht, List.filter_cons, ih]
      · have hor := not_and_or.mp hskip
        by_cases ht : t = tt <;>
          simp [LevelState.scanRow, occRow, hskip, ht, hor, List.filter_cons, ih]

lemma scanRows_eq_filter (fromX fromY : Int) (tt : TileType)
    (rows : List (List TileType)) (y : Nat) :
    LevelState.scanRows fromX fromY tt rows y =
      ((occGrid tt rows y).filter
        (fun p => !decide (p.1 = fromX ∧ p.2 = fromY))).head? := by
  induction rows generalizing y with
  | nil => rfl
  | cons row rest ih =>
      simp only [LevelState.scanRows, occGrid, List.filter_append]
      rw [scanRow_eq_filter]
      cases hfr : (occRow y tt row 0).filter
          (fun p => !decide (p.1 = fromX ∧ p.2 = fromY)) with
      | nil => simp [hfr, ih]
      | cons a as => simp [hfr]

lemma occRow_mem {y : Nat} {tt : TileType} {row : List TileType} {x : Nat}
    {p : Int × Int} (hp : p ∈ occRow y tt row x) :
    p.2 = (y : Int) ∧ (x : Int) ≤ p.1 := by
  induction row generalizing x with
  | nil => simp [occRow] at hp
  | cons t rest ih =>
      simp only [occRow] at hp
      by_cases ht : t = tt
      · rw [if_pos ht] at hp
        rcases List.mem_cons.mp hp with h | h
        · subst h; exact ⟨rfl, le_refl _⟩
        · have := ih h
          refine ⟨this.1, ?_⟩
          have h1 : ((x + 1 : Nat) : Int) ≤ p.1 := this.2
          omega
      · rw [if_neg ht] at hp
        have := ih hp
        refine ⟨this.1, ?_⟩
        have h1 : ((x + 1 : Nat) : Int) ≤ p.1 := this.2
        omega

lemma occRow_nodup (y : Nat) (tt : TileType) (row : List TileType) (x : Nat) :
    (occRow y tt row x).Nodup := by
  induction row generalizing x with
  | nil => simp [occRow]
  | cons t rest ih =>
      by_cases ht : t = tt
      · simp only [occRow, if_pos ht]
        refine List.nodup_cons.mpr ⟨?_, ih (x + 1)⟩
        intro hmem
        have h2 : ((x + 1 : Nat) : Int) ≤ ((x : Nat) : Int) := (occRow_mem hmem).2
        have h3 : (x : Int) + 1 ≤ (x : Int) := by exact_mod_cast h2
        omega
      · simp only [occRow, if_neg ht]
        exact ih (x + 1)

lemma occGrid_mem {tt : TileType} {rows : List (List TileType)} {y : Nat}
    {p : Int × Int} (hp : p ∈ occGrid tt rows y) : (y : Int) ≤ p.2 := by
  induction rows generalizing y with
  | nil => simp [occGrid] at hp
  | cons row rest ih =>
      simp only [occGrid, List.mem_append] at hp
      rcases hp with h | h
      · rw [(occRow_mem h).1]
      · have := ih h
        have h1 : ((y + 1 : Nat) : Int) ≤ p.2 := this
        omega

lemma occGrid_nodup (tt : TileType) (rows : List (List TileType)) (y : Nat) :
    (occGrid tt rows y).Nodup := by
  induction rows generalizing y with
  | nil => simp [occGrid]
  | cons row rest ih =>
      simp only [occGrid]
      refine List.Nodup.append (occRow_nodup y tt row 0) (ih (y + 1)) ?_
      intro p hrow hrest
      have h1 := (occRow_mem hrow).1
      have h2 := occGrid_mem hrest
      rw [h1] at h2
      have h3 : (y : Int) + 1 ≤ (y : Int) := by exact_mod_cast h2
      omega

/-- Claim C8: on a grid containing exactly one teleport tile of a given type,
`findTeleportDestination` at that tile returns null; on a grid containing
exactly two tiles of the same teleport type, each resolves to the other's
coordinates (the partner relation is an involution on the pair). -/
theorem C8_teleport_pairing (s : LevelState) (tt : TileType) (p q : Int × Int)
    (_htt : tt = TileType.TELEPORT_A ∨ tt = TileType.TELEPORT_B) :
    (occGrid tt s.tiles 0 = [p] →
      s.findTeleportDestination p.1 p.2 tt = none) ∧
    (occGrid tt s.tiles 0 = [p, q] →
      s.findTeleportDestination p.1 p.2 tt = some q ∧
      s.findTeleportDestination q.1 q.2 tt = some p) := by
  constructor
  · intro hone
    unfold LevelState.findTeleportDestination
    rw [scanRows_eq_filter, hone]
    simp
  · intro htwo
    have hnd : (occGrid tt s.tiles 0).Nodup := occGrid_nodup tt s.tiles 0
    rw [htwo] at hnd
    have hpq : p ≠ q := by simpa using hnd
    have hqp1 : ¬(q.1 = p.1 ∧ q.2 = p.2) := by
      intro hc
      exact hpq (Prod.ext hc.1.symm hc.2.symm)
    have hpq1 : ¬(p.1 = q.1 ∧ p.2 = q.2) := by
      intro hc
      exact hpq (Prod.ext hc.1 hc.2)
    have horq := not_and_or.mp hqp1
    have horp := not_and_or.mp hpq1
    constructor
    · unfold LevelState.findTeleportDestination
      rw [scanRows_eq_filter, htwo]
      simp [hqp1, horq]
    · unfold LevelState.findTeleportDestination
      rw [scanRows_eq_filter, htwo]
      simp [hpq1, horp]

/-- Witness for C8 on the concrete teleport grid: the paired TeleportA tiles
resolve to each other and the lone TeleportB tile resolves to null. -/
theorem C8_teleport_pairing_witness :
    occGrid TileType.TELEPORT_A wTeleState.tiles 0 = [(1, 0), (3, 2)] ∧
    wTeleState.findTeleportDestination 1 0 TileType.TELEPORT_A = some (3, 2) ∧
    wTeleState.findTeleportDestination 3 2 TileType.TELEPORT_A = some (1, 0) ∧
    occGrid TileType.TELEPORT_B wTeleState.tiles 0 = [(5, 5)] ∧
    wTeleState.findTeleportDestination 5 5 TileType.TELEPORT_B = none := by
  have hA := C8_teleport_pairing wTeleState TileType.TELEPORT_A (1, 0) (3, 2)
    (Or.inl rfl)
  have hB := C8_teleport_pairing wTeleState TileType.TELEPORT_B (5, 5) (5, 5)
    (Or.inr rfl)
  have h2 := hA.2 (by decide)
  exact ⟨by decide, h2.1, h2.2, by decide, hB.1 (by decide)⟩

/-! ### Hidden-item registries -/

lemma mapGet_mapDelete_self (m : HiddenMap) (k : Int × Int) :
    mapGet (mapDelete m k) k = none := by
  induction m with
  | nil => rfl
  | cons e rest ih =>
      by_cases he : e.1 = k
      · simp only [mapDelete, List.filter_cons, he] at ih ⊢
        simp [ih]
      · simp only [mapDelete, List.filter_cons, he] at ih ⊢
        simp [mapGet, List.find?, he, ih, mapDelete]

lemma revealPowerUpFromBlock_hiddenPortals (s : LevelState) (gx gy : Int) :
    (s.revealPowerUpFromBlock gx gy).2.hiddenPortals = s.hiddenPortals := by
  unfold LevelState.revealPowerUpFromBlock
  split <;> rfl

/-- The portal registry is never touched by `Player.performAction`: breaking a
block reveals at most a hidden power-up, never a hidden portal. -/
lemma performAction_hiddenPortals (p : Player) (s : LevelState) (hasGame : Bool) :
    (p.performAction s hasGame).1.hiddenPortals = s.hiddenPortals := by
  unfold Player.performAction
  split <;> split <;>
    simp [apply_ite (fun z : LevelState × List GameEvent => z.1.hiddenPortals),
      LevelState.setTileAt, revealPowerUpFromBlock_hiddenPortals]

/-- Claim C9, counterexample: in `c9State` a portal (id 7) is registered as
hidden under the Breakable block at `(3, 2)`; the player breaks that block
(`performAction`), the tile becomes Broken — the covering block is removed —
yet the portal is not revealed and its registry entry survives, contradicting
"revealed at the moment (and only at the moment) the covering block is
removed". -/
theorem C9_hidden_item_conservation_counterexample :
    c9State.getTileAt 3 2 = TileType.BREAKABLE ∧
    mapGet c9State.hiddenPortals (3, 2) = some 7 ∧
    (c9Player.performAction c9State true).1.getTileAt 3 2 = TileType.BROKEN ∧
    mapGet (c9Player.performAction c9State true).1.hiddenPortals (3, 2) = some 7 ∧
    (c9Player.performAction c9State true).2 = [] := by
  have hgx : c9Player.getGridX = 2 := by
    show (⌊(64 : ℝ) / 32⌋ : Int) = 2
    norm_num
  have hgy : c9Player.getGridY = 2 := by
    show (⌊(64 : ℝ) / 32⌋ : Int) = 2
    norm_num
  have hdir : c9Player.direction = Direction.right := rfl
  have hmg : mapGet (c9State.setTileAt 3 2 TileType.BROKEN).hiddenPowerUps
      (3, 2) = none := by decide
  have key : c9Player.performAction c9State true =
      (c9State.setTileAt 3 2 TileType.BROKEN, []) := by
    simp only [Player.performAction, hdir, hgx, hgy]
    norm_num [(by decide : c9State.getTileAt 3 2 = TileType.BREAKABLE),
      LevelState.revealPowerUpFromBlock, hmg]
  rw [key]
  refine ⟨by decide, by decide, by decide, by decide, rfl⟩

lemma revealPortalFromBlock_hiddenPowerUps (s : LevelState) (gx gy : Int) :
    (s.revealPortalFromBlock gx gy).2.hiddenPowerUps = s.hiddenPowerUps := by
  unfold LevelState.revealPortalFromBlock
  split <;> rfl

lemma revealPowerUpFromBlock_fst (s : LevelState) (gx gy : Int) :
    (s.revealPowerUpFromBlock gx gy).1 = mapGet s.hiddenPowerUps (gx, gy) := by
  unfold LevelState.revealPowerUpFromBlock
  rcases h : mapGet s.hiddenPowerUps (gx, gy) <;> simp [h]

lemma revealPortalFromBlock_fst (s : LevelState) (gx gy : Int) :
    (s.revealPortalFromBlock gx gy).1 = mapGet s.hiddenPortals (gx, gy) := by
  unfold LevelState.revealPortalFromBlock
  rcases h : mapGet s.hiddenPortals (gx, gy) <;> simp [h]

lemma revealPowerUpFromBlock_deleted (s : LevelState) (gx gy : Int) :
    mapGet (s.revealPowerUpFromBlock gx gy).2.hiddenPowerUps (gx, gy) = none := by
  unfold LevelState.revealPowerUpFromBlock
  rcases h : mapGet s.hiddenPowerUps (gx, gy) <;>
    simp [h, mapGet_mapDelete_self]

lemma revealPortalFromBlock_deleted (s : LevelState) (gx gy : Int) :
    mapGet (s.revealPortalFromBlock gx gy).2.hiddenPortals (gx, gy) = none := by
  unfold LevelState.revealPortalFromBlock
  rcases h : mapGet s.hiddenPortals (gx, gy) <;>
    simp [h, mapGet_mapDelete_self]

/-- Claim C9, amended: every hidden PowerUp registered against a cell is
revealed exactly once, at the moment the covering block is removed from that
cell by a push or a break; every hidden Portal is revealed exactly once, and
only by a push — breaking the covering block does not reveal a hidden portal.
At the moment of reveal the registry entry is deleted, so any later reveal
call for that cell returns null, and a failed push reveals nothing and leaves
the registries unchanged. -/
theorem C9_hidden_item_conservation (s : LevelState) (gx gy : Int) (pid : Nat)
    (d : Direction) (p : Player) (hasGame : Bool) :
    (mapGet s.hiddenPowerUps (gx, gy) = some pid →
      (s.revealPowerUpFromBlock gx gy).1 = some pid ∧
      mapGet (s.revealPowerUpFromBlock gx gy).2.hiddenPowerUps (gx, gy) = none ∧
      ((s.revealPowerUpFromBlock gx gy).2.revealPowerUpFromBlock gx gy).1 = none) ∧
    (mapGet s.hiddenPowerUps (gx, gy) = none →
      s.revealPowerUpFromBlock gx gy = (none, s)) ∧
    (mapGet s.hiddenPortals (gx, gy) = some pid →
      (s.revealPortalFromBlock gx gy).1 = some pid ∧
      mapGet (s.revealPortalFromBlock gx gy).2.hiddenPortals (gx, gy) = none ∧
      ((s.revealPortalFromBlock gx gy).2.revealPortalFromBlock gx gy).1 = none) ∧
    (mapGet s.hiddenPortals (gx, gy) = none →
      s.revealPortalFromBlock gx gy = (none, s)) ∧
    ((s.tryPushBlock gx gy d).success = false →
      (s.tryPushBlock gx gy d).state = s ∧
      (s.tryPushBlock gx gy d).revealedPowerUp = none ∧
      (s.tryPushBlock gx gy d).revealedPortal = none) ∧
    ((s.tryPushBlock gx gy d).success = true →
      (s.tryPushBlock gx gy d).revealedPowerUp = mapGet s.hiddenPowerUps (gx, gy) ∧
      (s.tryPushBlock gx gy d).revealedPortal = mapGet s.hiddenPortals (gx, gy) ∧
      mapGet (s.tryPushBlock gx gy d).state.hiddenPowerUps (gx, gy) = none ∧
      mapGet (s.tryPushBlock gx gy d).state.hiddenPortals (gx, gy) = none) ∧
    ((p.performAction s hasGame).1.hiddenPortals = s.hiddenPortals) := by
  refine ⟨?_, ?_, ?_, ?_, ?_, ?_, performAction_hiddenPortals p s hasGame⟩
  · intro h
    refine ⟨by rw [revealPowerUpFromBlock_fst, h], revealPowerUpFromBlock_deleted s gx gy, ?_⟩
    rw [revealPowerUpFromBlock_fst, revealPowerUpFromBlock_deleted]
  · intro h
    unfold LevelState.revealPowerUpFromBlock
    rw [h]
  · intro h
    refine ⟨by rw [revealPortalFromBlock_fst, h], revealPortalFromBlock_deleted s gx gy, ?_⟩
    rw [revealPortalFromBlock_fst, revealPortalFromBlock_deleted]
  · intro h
    unfold LevelState.revealPortalFromBlock
    rw [h]
  · intro hfail
    rw [tryPushBlock_fail_eq s gx gy d hfail]
    exact ⟨rfl, rfl, rfl⟩
  · intro hsucc
    simp only [LevelState.tryPushBlock] at hsucc ⊢
    by_cases h1 : ¬s.isPushable gx gy = true
    · rw [if_pos h1] at hsucc
      simp at hsucc
    · rw [if_neg h1] at hsucc ⊢
      by_cases h2 : LevelState.getPushDirection (s.getTileAt gx gy) ≠ some PushRule.any ∧
          LevelState.getPushDirection (s.getTileAt gx gy) ≠ some (PushRule.dir d)
      · rw [if_pos h2] at hsucc
        simp at hsucc
      · rw [if_neg h2] at hsucc ⊢
        by_cases h3 : s.isSolid (LevelState.pushDest gx gy d).1
              (LevelState.pushDest gx gy d).2 = true ∨
            ¬LevelState.isInBounds (LevelState.pushDest gx gy d).1
              (LevelState.pushDest gx gy d).2 = true
        · rw [if_pos h3] at hsucc
          simp at hsucc
        · rw [if_neg h3]
          refine ⟨?_, ?_, ?_, ?_⟩
          · rw [revealPowerUpFromBlock_fst]
            rfl
          · rw [revealPortalFromBlock_fst, revealPowerUpFromBlock_hiddenPortals]
            rfl
          · show mapGet ((_ : LevelState).revealPortalFromBlock gx gy).2.hiddenPowerUps (gx, gy) = none
            rw [revealPortalFromBlock_hiddenPowerUps, revealPowerUpFromBlock_deleted]
          · show mapGet ((_ : LevelState).revealPortalFromBlock gx gy).2.hiddenPortals (gx, gy) = none
            rw [revealPortalFromBlock_deleted]

/-- Witness for the amended C9 on `pushState`: pushing the block at `(3, 3)`
right succeeds and reveals exactly the registered power-up (id 4) and portal
(id 9), deleting both registry entries. -/
theorem C9_hidden_item_conservation_witness :
    mapGet pushState.hiddenPowerUps (3, 3) = some 4 ∧
    mapGet pushState.hiddenPortals (3, 3) = some 9 ∧
    (pushState.tryPushBlock 3 3 Direction.right).success = true ∧
    (pushState.tryPushBlock 3 3 Direction.right).revealedPowerUp = some 4 ∧
    (pushState.tryPushBlock 3 3 Direction.right).revealedPortal = some 9 ∧
    mapGet (pushState.tryPushBlock 3 3 Direction.right).state.hiddenPowerUps
      (3, 3) = none ∧
    mapGet (pushState.tryPushBlock 3 3 Direction.right).state.hiddenPortals
      (3, 3) = none := by
  have h := C9_hidden_item_conservation pushState 3 3 4 Direction.right
    (mkPlayer 0 0) true
  have hs := h.2.2.2.2.2.1 (by decide)
  exact ⟨by decide, by decide, by decide,
    by rw [hs.1]; decide, by rw [hs.2.1]; decide, hs.2.2.1, hs.2.2.2⟩

/-! ### Push atomicity -/

lemma isSolid_of_mem_anim (s : LevelState) (b : AnimBlock)
    (hmem : b ∈ s.animatingBlocks) : s.isSolid b.destX b.destY = true := by
  unfold LevelState.isSolid
  by_cases hb : b.destX < 0 ∨ CONFIG.GRID_WIDTH ≤ b.destX ∨ b.destY < 0 ∨
      CONFIG.GRID_HEIGHT ≤ b.destY
  · rw [if_pos hb]
  · rw [if_neg hb, if_pos (List.any_eq_true.mpr ⟨b, hmem, by simp⟩)]

lemma tileAt_setTile_self (tiles : List (List TileType)) (x y : Int) :
    tileAt (setTile tiles x y TileType.WALL) x y = TileType.WALL := by
  unfold setTile
  by_cases hy : y < 0 ∨ (tiles.length : Int) ≤ y
  · rw [if_pos hy]
    unfold tileAt
    rw [if_pos hy]
  · rw [if_neg hy]
    by_cases hx : x < 0 ∨ ((tiles.getD y.toNat []).length : Int) ≤ x
    · rw [if_pos hx]
      unfold tileAt
      rw [if_neg hy, if_pos hx]
    · rw [if_neg hx]
      push_neg at hy hx
      have hylt : y.toNat < tiles.length := by omega
      have hxlt : x.toNat < (tiles.getD y.toNat []).length := by omega
      unfold tileAt
      have hlen : ((tiles.set y.toNat
          ((tiles.getD y.toNat []).set x.toNat TileType.WALL)).length : Int) =
          (tiles.length : Int) := by simp
      rw [if_neg (by rw [hlen]; push_neg; exact hy)]
      have hgd : (tiles.set y.toNat
          ((tiles.getD y.toNat []).set x.toNat TileType.WALL)).getD y.toNat [] =
          (tiles.getD y.toNat []).set x.toNat TileType.WALL := by
        rw [List.getD_eq_getElem _ _ (by simpa using hylt)]
        exact List.getElem_set_self _
      rw [hgd]
      rw [if_neg (by simp only [List.length_set]; push_neg; exact hx)]
      rw [List.getD_eq_getElem _ _ (by simpa using hxlt)]
      exact List.getElem_set_self _

lemma tileAt_setTile_ne (tiles : List (List TileType)) (x y xw yw : Int)
    (t : TileType) (hne : ¬(x = xw ∧ y = yw)) :
    tileAt (setTile tiles xw yw t) x y = tileAt tiles x y := by
  unfold setTile
  by_cases hyw : yw < 0 ∨ (tiles.length : Int) ≤ yw
  · rw [if_pos hyw]
  · rw [if_neg hyw]
    by_cases hxw : xw < 0 ∨ ((tiles.getD yw.toNat []).length : Int) ≤ xw
    · rw [if_pos hxw]
    · rw [if_neg hxw]
      push_neg at hyw hxw
      have hywlt : yw.toNat < tiles.length := by omega
      unfold tileAt
      have hlen : ((tiles.set yw.toNat
          ((tiles.getD yw.toNat []).set xw.toNat t)).length : Int) =
          (tiles.length : Int) := by simp
      rw [hlen]
      by_cases hy : y < 0 ∨ (tiles.length : Int) ≤ y
      · rw [if_pos hy, if_pos hy]
      · rw [if_neg hy, if_neg hy]
        push_neg at hy
        have hylt : y.toNat < tiles.length := by omega
        by_cases hyy : y = yw
        · subst hyy
          have hxx : x ≠ xw := by tauto
          have hgd : (tiles.set y.toNat
              ((tiles.getD y.toNat []).set xw.toNat t)).getD y.toNat [] =
              (tiles.getD y.toNat []).set xw.toNat t := by
            rw [List.getD_eq_getElem _ _ (by simpa using hylt)]
            exact List.getElem_set_self _
          rw [hgd, List.length_set]
          by_cases hx : x < 0 ∨ ((tiles.getD y.toNat []).length : Int) ≤ x
          · rw [if_pos hx, if_pos hx]
          · rw [if_neg hx, if_neg hx]
            push_neg at hx
            have hxlt : x.toNat < (tiles.getD y.toNat []).length := by omega
            rw [List.getD_eq_getElem _ _ (by simpa using hxlt),
              List.getD_eq_getElem _ _ hxlt]
            exact List.getElem_set_ne (by omega) _
        · have hgd : (tiles.set yw.toNat
              ((tiles.getD yw.toNat []).set xw.toNat t)).getD y.toNat [] =
              tiles.getD y.toNat [] := by
            rw [List.getD_eq_getElem _ _ (by simpa using hylt),
              List.getD_eq_getElem _ _ hylt]
            exact List.getElem_set_ne (by omega) _
          rw [hgd]

lemma tileAt_setTile_wall_preserve (tiles : List (List TileType))
    (x y xw yw : Int) (h : tileAt tiles x y = TileType.WALL) :
    tileAt (setTile tiles xw yw TileType.WALL) x y = TileType.WALL := by
  by_cases hxy : x = xw ∧ y = yw
  · rw [hxy.1, hxy.2]
    exact tileAt_setTile_self tiles xw yw
  · rw [tileAt_setTile_ne tiles x y xw yw TileType.WALL hxy]
    exact h

lemma animStep_snd_wall (dt : ℝ) (blocks : List AnimBlock)
    (tiles : List (List TileType)) (x y : Int)
    (h : tileAt tiles x y = TileType.WALL) :
    tileAt (LevelState.animStep dt blocks tiles).2 x y = TileType.WALL := by
  induction blocks generalizing tiles with
  | nil => exact h
  | cons b rest ih =>
      simp only [LevelState.animStep]
      by_cases hc : 1 ≤ b.progress + dt / b.duration
      · rw [if_pos hc]
        exact ih _ (tileAt_setTile_wall_preserve tiles x y b.destX b.destY h)
      · rw [if_neg hc]
        exact ih tiles h

lemma animStep_commit (dt : ℝ) (blocks : List AnimBlock)
    (tiles : List (List TileType)) (b : AnimBlock) (hmem : b ∈ blocks)
    (hdone : 1 ≤ b.progress + dt / b.duration) :
    tileAt (LevelState.animStep dt blocks tiles).2 b.destX b.destY =
      TileType.WALL := by
  induction blocks generalizing tiles with
  | nil => cases hmem
  | cons a rest ih =>
      simp only [LevelState.animStep]
      rcases List.mem_cons.mp hmem with heq | hmem'
      · subst heq
        rw [if_pos hdone]
        exact animStep_snd_wall dt rest _ b.destX b.destY
          (tileAt_setTile_self tiles b.destX b.destY)
      · by_cases hc : 1 ≤ a.progress + dt / a.duration
        · rw [if_pos hc]
          exact ih _ hmem'
        · rw [if_neg hc]
          exact ih tiles hmem'

lemma animStep_fst (dt : ℝ) (blocks : List AnimBlock)
    (tiles : List (List TileType)) :
    (LevelState.animStep dt blocks tiles).1 = blocks.filterMap (fun c =>
      if 1 ≤ c.progress + dt / c.duration then none
      else some { c with progress := c.progress + dt / c.duration }) := by
  induction blocks generalizing tiles with
  | nil => rfl
  | cons b rest ih =>
      simp only [LevelState.animStep, List.filterMap_cons]
      by_cases hc : 1 ≤ b.progress + dt / b.duration
      · rw [if_pos hc, if_pos hc]
        exact ih _
      · rw [if_neg hc, if_neg hc]
        simp [ih tiles]

lemma update_tiles (s : LevelState) (dt : ℝ) (pv : Option PlayerView) :
    (s.update dt pv).tiles = (LevelState.animStep dt s.animatingBlocks s.tiles).2 := by
  simp only [LevelState.update]
  by_cases ht : s.toggleTimer + dt < 0
  · rw [if_pos ht]
  · rw [if_neg ht]

lemma update_animatingBlocks (s : LevelState) (dt : ℝ) (pv : Option PlayerView) :
    (s.update dt pv).animatingBlocks =
      (LevelState.animStep dt s.animatingBlocks s.tiles).1 := by
  simp only [LevelState.update]
  by_cases ht : s.toggleTimer + dt < 0
  · rw [if_pos ht]
  · rw [if_neg ht]

lemma revealPowerUpFromBlock_tiles (s : LevelState) (gx gy : Int) :
    (s.revealPowerUpFromBlock gx gy).2.tiles = s.tiles := by
  unfold LevelState.revealPowerUpFromBlock
  split <;> rfl

lemma revealPortalFromBlock_tiles (s : LevelState) (gx gy : Int) :
    (s.revealPortalFromBlock gx gy).2.tiles = s.tiles := by
  unfold LevelState.revealPortalFromBlock
  split <;> rfl

lemma revealPowerUpFromBlock_anim (s : LevelState) (gx gy : Int) :
    (s.revealPowerUpFromBlock gx gy).2.animatingBlocks = s.animatingBlocks := by
  unfold LevelState.revealPowerUpFromBlock
  split <;> rfl

lemma revealPortalFromBlock_anim (s : LevelState) (gx gy : Int) :
    (s.revealPortalFromBlock gx gy).2.animatingBlocks = s.animatingBlocks := by
  unfold LevelState.revealPortalFromBlock
  split <;> rfl

/-- Claim C1: `tryPushBlock` either returns failure and leaves the tile grid,
the animating-block list and the hidden-item registries unchanged — and it
fails exactly when the tile is not pushable, the direction is disallowed, or
the destination is solid or out of bounds — or it returns success, sets the
source tile to Empty and enqueues an AnimatingBlock of duration 0.2 s for the
destination; any cell that is the destination of a live AnimatingBlock is
solid, and a block whose progress completes during `LevelManager.update` is
removed from the list with its destination committed as Wall.  All this
happens inside one step function, so no partial state is observable between
ticks. -/
theorem C1_push_atomicity (s : LevelState) (gx gy : Int) (d : Direction) :
    ((s.tryPushBlock gx gy d).success = false ↔
      (s.isPushable gx gy = false ∨
       (LevelState.getPushDirection (s.getTileAt gx gy) ≠ some PushRule.any ∧
        LevelState.getPushDirection (s.getTileAt gx gy) ≠
          some (PushRule.dir d)) ∨
       s.isSolid (LevelState.pushDest gx gy d).1
         (LevelState.pushDest gx gy d).2 = true ∨
       LevelState.isInBounds (LevelState.pushDest gx gy d).1
         (LevelState.pushDest gx gy d).2 = false)) ∧
    ((s.tryPushBlock gx gy d).success = false →
      (s.tryPushBlock gx gy d).state = s) ∧
    ((s.tryPushBlock gx gy d).success = true →
      (s.tryPushBlock gx gy d).state.tiles =
        setTile s.tiles gx gy TileType.EMPTY ∧
      (s.tryPushBlock gx gy d).state.animatingBlocks =
        s.animatingBlocks ++
          [{ tileType := s.getTileAt gx gy, fromX := gx, fromY := gy,
             toX := (LevelState.pushDest gx gy d).1,
             toY := (LevelState.pushDest gx gy d).2,
             destX := (LevelState.pushDest gx gy d).1,
             destY := (LevelState.pushDest gx gy d).2,
             progress := 0, duration := 0.2 }]) ∧
    (∀ (s' : LevelState) (b : AnimBlock), b ∈ s'.animatingBlocks →
      s'.isSolid b.destX b.destY = true) ∧
    (∀ (s' : LevelState) (dt : ℝ) (pv : Option PlayerView) (b : AnimBlock),
      b ∈ s'.animatingBlocks → 1 ≤ b.progress + dt / b.duration →
      (s'.update dt pv).getTileAt b.destX b.destY = TileType.WALL) ∧
    (∀ (s' : LevelState) (dt : ℝ) (pv : Option PlayerView),
      (s'.update dt pv).animatingBlocks = s'.animatingBlocks.filterMap (fun c =>
        if 1 ≤ c.progress + dt / c.duration then none
        else some { c with progress := c.progress + dt / c.duration })) := by
  refine ⟨?_, ?_, ?_, ?_, ?_, ?_⟩
  · simp only [LevelState.tryPushBlock]
    by_cases h1 : ¬s.isPushable gx gy = true
    · rw [if_pos h1]
      exact ⟨fun _ => Or.inl (by simpa using h1), fun _ => rfl⟩
    · rw [if_neg h1]
      by_cases h2 : LevelState.getPushDirection (s.getTileAt gx gy) ≠
            some PushRule.any ∧
          LevelState.getPushDirection (s.getTileAt gx gy) ≠
            some (PushRule.dir d)
      · rw [if_pos h2]
        exact ⟨fun _ => Or.inr (Or.inl h2), fun _ => rfl⟩
      · rw [if_neg h2]
        by_cases h3 : s.isSolid (LevelState.pushDest gx gy d).1
              (LevelState.pushDest gx gy d).2 = true ∨
            ¬LevelState.isInBounds (LevelState.pushDest gx gy d).1
              (LevelState.pushDest gx gy d).2 = true
        · rw [if_pos h3]
          refine ⟨fun _ => ?_, fun _ => rfl⟩
          rcases h3 with h3 | h3
          · exact Or.inr (Or.inr (Or.inl h3))
          · exact Or.inr (Or.inr (Or.inr (by simpa using h3)))
        · rw [if_neg h3]
          push_neg at h3
          constructor
          · intro hcontra
            simp at hcontra
          · intro hrhs
            exfalso
            rcases hrhs with h | h | h | h
            · have hp := not_not.mp h1
              rw [h] at hp
              exact Bool.false_ne_true hp
            · exact h2 h
            · exact h3.1 h
            · have hin := h3.2
              rw [h] at hin
              exact Bool.false_ne_true hin
  · intro hfail
    rw [tryPushBlock_fail_eq s gx gy d hfail]
  · intro hsucc
    simp only [LevelState.tryPushBlock] at hsucc ⊢
    by_cases h1 : ¬s.isPushable gx gy = true
    · rw [if_pos h1] at hsucc
      simp at hsucc
    · rw [if_neg h1] at hsucc ⊢
      by_cases h2 : LevelState.getPushDirection (s.getTileAt gx gy) ≠
            some PushRule.any ∧
          LevelState.getPushDirection (s.getTileAt gx gy) ≠
            some (PushRule.dir d)
      · rw [if_pos h2] at hsucc
        simp at hsucc
      · rw [if_neg h2] at hsucc ⊢
        by_cases h3 : s.isSolid (LevelState.pushDest gx gy d).1
              (LevelState.pushDest gx gy d).2 = true ∨
            ¬LevelState.isInBounds (LevelState.pushDest gx gy d).1
              (LevelState.pushDest gx gy d).2 = true
        · rw [if_pos h3] at hsucc
          simp at hsucc
        · rw [if_neg h3]
          constructor
          · show ((((s.setTileAt gx gy TileType.EMPTY).revealPowerUpFromBlock
                gx gy).2.revealPortalFromBlock gx gy).2.tiles) = _
            rw [revealPortalFromBlock_tiles, revealPowerUpFromBlock_tiles]
            rfl
          · show ((((s.setTileAt gx gy TileType.EMPTY).revealPowerUpFromBlock
                gx gy).2.revealPortalFromBlock gx gy).2.animatingBlocks ++ _) = _
            rw [revealPortalFromBlock_anim, revealPowerUpFromBlock_anim]
            rfl
  · exact fun s' b hb => isSolid_of_mem_anim s' b hb
  · intro s' dt pv b hb hdone
    show tileAt (s'.update dt pv).tiles b.destX b.destY = TileType.WALL
    rw [update_tiles]
    exact animStep_commit dt s'.animatingBlocks s'.tiles b hb hdone
  · intro s' dt pv
    rw [update_animatingBlocks, animStep_fst]

/-- Witness for C1 on `pushState` (the spec's §8 scenario): pushing the block
at `(3, 3)` right succeeds, clears the source, reserves `(4, 3)` as solid, and
after a 0.25 s update tick the destination reads Wall with the animating block
removed. -/
theorem C1_push_atomicity_witness :
    (pushState.tryPushBlock 3 3 Direction.right).success = true ∧
    (pushState.tryPushBlock 3 3 Direction.right).state.tiles =
      setTile pushState.tiles 3 3 TileType.EMPTY ∧
    (pushState.tryPushBlock 3 3 Direction.right).state.isSolid 4 3 = true ∧
    ((pushState.tryPushBlock 3 3 Direction.right).state.update (1/4)
      none).getTileAt 4 3 = TileType.WALL ∧
    ((pushState.tryPushBlock 3 3 Direction.right).state.update (1/4)
      none).animatingBlocks = [] := by
  have h := C1_push_atomicity pushState 3 3 Direction.right
  have hsucc : (pushState.tryPushBlock 3 3 Direction.right).success = true := by
    decide
  have hst := h.2.2.1 hsucc
  have hdest : LevelState.pushDest 3 3 Direction.right = (4, 3) := by decide
  have hanim : (pushState.tryPushBlock 3 3 Direction.right).state.animatingBlocks =
      [pushBlockRec] := by
    rw [hst.2, hdest]
    rfl
  have hmem : pushBlockRec ∈
      (pushState.tryPushBlock 3 3 Direction.right).state.animatingBlocks := by
    rw [hanim]
    exact List.mem_singleton.mpr rfl
  have hdone : (1 : ℝ) ≤ (0 : ℝ) + (1/4) / (0.2 : ℝ) := by norm_num
  refine ⟨hsucc, hst.1, ?_, ?_, ?_⟩
  · exact h.2.2.2.1 _ _ hmem
  · exact h.2.2.2.2.1 _ (1/4) none _ hmem hdone
  · rw [h.2.2.2.2.2 _ (1/4) none, hanim]
    simp only [pushBlockRec, List.filterMap_cons, List.filterMap_nil]
    rw [if_pos hdone]

/-! ### Toggle-block transition suppression -/

/-- Claim C5, counterexample: the player's grid position `(2, 2)` equals the
toggle block's cell and the cycle phase implies a transition into solid, but
because `player.isMoving` is true the suppression in `LevelManager.update` is
skipped (`playerGridX` stays `-1`) and the block becomes solid on that very
tick. -/
theorem C5_toggle_suppression_counterexample :
    c5State.getTileAt 2 2 = TileType.TOGGLE_BLOCK ∧
    (c5State.getToggleBlockAt 2 2).map ToggleBlockState.isSolid = some false ∧
    (⟨true, 2, 2⟩ : PlayerView).gridX = 2 ∧
    (⟨true, 2, 2⟩ : PlayerView).gridY = 2 ∧
    jsMod (c5State.toggleTimer + 1/10) c5State.toggleCycleDuration <
      c5State.toggleCycleDuration / 2 ∧
    ((c5State.update (1/10) (some ⟨true, 2, 2⟩)).getToggleBlockAt 2 2).map
      ToggleBlockState.isSolid = some true := by
  have hcyc : jsMod ((0 : ℝ) + 1/10) 14 = 1/10 := by
    norm_num [jsMod, jsTrunc]
  have hts : LevelState.toggleStep (1/10) (jsMod ((0 : ℝ) + 1/10) 14) (14/2)
      (0.4 : ℝ) (-1) (-1) ⟨2, 2, false, false, 0⟩ =
      (⟨2, 2, true, true, 1/4⟩ : ToggleBlockState) := by
    rw [hcyc]
    unfold LevelState.toggleStep
    have h1 : decide ((1/10 : ℝ) < 14/2) = true := decide_eq_true (by norm_num)
    simp only [h1]
    norm_num
  have hupd : (c5State.update (1/10) (some ⟨true, 2, 2⟩)).toggleBlocks =
      [⟨2, 2, true, true, 1/4⟩] := by
    simp only [LevelState.update, c5State]
    rw [if_neg (by norm_num : ¬((0 : ℝ) + 1/10 < 0))]
    simp only [Bool.not_true, List.map]
    rw [if_neg (by decide : ¬(false = true))]
    simpa using hts
  refine ⟨by decide, by decide, rfl, rfl, ?_, ?_⟩
  · show jsMod ((0 : ℝ) + 1/10) 14 < 14 / 2
    rw [hcyc]
    norm_num
  · unfold LevelState.getToggleBlockAt
    rw [hupd]
    rfl

/-- Claim C5, amended: on every tick of `LevelManager.update` in which the
player is stationary (`isMoving` false) and occupies a ToggleBlock cell, and
the cycle phase implies a transition into solid, the block does not become
solid on that tick — the transition is cancelled entirely (`isTransitioning`
and `transitionProgress` reset, `isSolid` stays false); while the player is
mid-step the update reads its grid position as `(-1, -1)` and the suppression
does not apply. -/
theorem C5_toggle_suppression (s : LevelState) (dt : ℝ) (pv : PlayerView)
    (i : Nat) (tb : ToggleBlockState)
    (hi : s.toggleBlocks[i]? = some tb)
    (hmov : pv.isMoving = false)
    (hx : pv.gridX = tb.x) (hy : pv.gridY = tb.y)
    (hns : tb.isSolid = false)
    (ht : 0 ≤ s.toggleTimer + dt)
    (hph : jsMod (s.toggleTimer + dt) s.toggleCycleDuration <
      s.toggleCycleDuration / 2) :
    (s.update dt (some pv)).toggleBlocks[i]? =
      some { tb with isTransitioning := false, transitionProgress := 0 } := by
  simp only [LevelState.update]
  rw [if_neg (not_lt.mpr ht)]
  simp only [hmov, Bool.not_false, if_pos]
  rw [List.getElem?_map, hi, Option.map_some']
  unfold LevelState.toggleStep
  rw [hx, hy]
  have h1 : decide (jsMod (s.toggleTimer + dt) s.toggleCycleDuration <
      s.toggleCycleDuration / 2) = true := decide_eq_true hph
  have h2 : decide (tb.x = tb.x ∧ tb.y = tb.y) = true :=
    decide_eq_true ⟨rfl, rfl⟩
  simp [h1, h2, hns]

/-- Witness for the amended C5: same state as the counterexample but with a
stationary player on the toggle cell — the flip into solid is suppressed. -/
theorem C5_toggle_suppression_witness :
    (c5State.toggleBlocks[0]? = some ⟨2, 2, false, false, 0⟩) ∧
    ((⟨false, 2, 2⟩ : PlayerView).isMoving = false) ∧
    (0 : ℝ) ≤ c5State.toggleTimer + 1/10 ∧
    jsMod (c5State.toggleTimer + 1/10) c5State.toggleCycleDuration <
      c5State.toggleCycleDuration / 2 ∧
    (c5State.update (1/10) (some ⟨false, 2, 2⟩)).toggleBlocks[0]? =
      some ⟨2, 2, false, false, 0⟩ := by
  have hph : jsMod (c5State.toggleTimer + 1/10) c5State.toggleCycleDuration <
      c5State.toggleCycleDuration / 2 := by
    show jsMod ((0 : ℝ) + 1/10) 14 < 14 / 2
    norm_num [jsMod, jsTrunc]
  have h := C5_toggle_suppression c5State (1/10) ⟨false, 2, 2⟩ 0
    ⟨2, 2, false, false, 0⟩ rfl rfl rfl rfl rfl (by norm_num [c5State]) hph
  exact ⟨rfl, rfl, by norm_num [c5State], hph, h⟩

/-! ### The toggle trap -/

lemma isPlayerTrapped_true (s : LevelState) (gx gy : Int) (tb : ToggleBlockState)
    (htile : s.getTileAt gx gy = TileType.TOGGLE_BLOCK)
    (hblk : s.getToggleBlockAt gx gy = some tb) (hsolid : tb.isSolid = true) :
    s.isPlayerTrappedOnToggleBlock gx gy = true := by
  unfold LevelState.isPlayerTrappedOnToggleBlock
  rw [if_pos htile, hblk]
  exact hsolid

lemma isPlayerTrapped_false_of_not_toggle (s : LevelState) (gx gy : Int)
    (h : s.getTileAt gx gy ≠ TileType.TOGGLE_BLOCK) :
    s.isPlayerTrappedOnToggleBlock gx gy = false := by
  unfold LevelState.isPlayerTrappedOnToggleBlock
  rw [if_neg h]

lemma isPlayerTrapped_false_of_passable (s : LevelState) (gx gy : Int)
    (tb : ToggleBlockState) (hblk : s.getToggleBlockAt gx gy = some tb)
    (h : tb.isSolid = false) :
    s.isPlayerTrappedOnToggleBlock gx gy = false := by
  unfold LevelState.isPlayerTrappedOnToggleBlock
  by_cases htile : s.getTileAt gx gy = TileType.TOGGLE_BLOCK
  · rw [if_pos htile, hblk]
    exact h
  · rw [if_neg htile]

lemma handleInput_trapped (p : Player) (input : Input) (s : LevelState)
    (h : p.isTrapped = true) : p.handleInput input s = ⟨p, s, []⟩ := by
  unfold Player.handleInput
  by_cases htel : p.isTeleporting = true
  · rw [if_pos htel]
  · rw [if_neg htel, if_pos h]

lemma checkArrowTile_toggle (p : Player) (s : LevelState)
    (h : s.getTileAt p.getGridX p.getGridY = TileType.TOGGLE_BLOCK) :
    p.checkArrowTile s = p := by
  simp only [Player.checkArrowTile, h]

lemma updateActionStage_fields (input : Input) (hasGame : Bool) (p : Player)
    (lm : LevelState) :
    (Player.updateActionStage input hasGame p lm).player.isTrapped =
      p.isTrapped ∧
    (Player.updateActionStage input hasGame p lm).player.x = p.x ∧
    (Player.updateActionStage input hasGame p lm).player.y = p.y ∧
    (Player.updateActionStage input hasGame p lm).player.isMoving =
      p.isMoving := by
  refine ⟨?_, ?_, ?_, ?_⟩ <;>
    simp [Player.updateActionStage,
      apply_ite (fun st : PlayerStep => st.player),
      apply_ite (fun q : Player => q.isTrapped),
      apply_ite (fun q : Player => q.x),
      apply_ite (fun q : Player => q.y),
      apply_ite (fun q : Player => q.isMoving)]

lemma updateTimersStage_fields (dt : ℝ) (p : Player) :
    (Player.updateTimersStage dt p).isTrapped = p.isTrapped ∧
    (Player.updateTimersStage dt p).x = p.x ∧
    (Player.updateTimersStage dt p).y = p.y ∧
    (Player.updateTimersStage dt p).isMoving = p.isMoving := by
  refine ⟨?_, ?_, ?_, ?_⟩ <;>
    simp [Player.updateTimersStage, Player.removePowerUp,
      apply_ite (fun q : Player => q.isTrapped),
      apply_ite (fun q : Player => q.x),
      apply_ite (fun q : Player => q.y),
      apply_ite (fun q : Player => q.isMoving)]

/-- Claim C6: if the player's grid cell holds a ToggleBlock whose current
state is solid, `isPlayerTrappedOnToggleBlock` returns true and no directional
input is honored — `handleInput` is a no-op while the trapped flag is set, and
on every such tick `Player.update` recomputes the trapped flag as true and
leaves the player's position and movement state unchanged; if the cell is not
a ToggleBlock or the block is passable, the function returns false. -/
theorem C6_toggle_trap (s : LevelState) (gx gy : Int) (tb : ToggleBlockState) :
    (s.getTileAt gx gy = TileType.TOGGLE_BLOCK →
      s.getToggleBlockAt gx gy = some tb → tb.isSolid = true →
      s.isPlayerTrappedOnToggleBlock gx gy = true) ∧
    (s.getTileAt gx gy ≠ TileType.TOGGLE_BLOCK →
      s.isPlayerTrappedOnToggleBlock gx gy = false) ∧
    (s.getToggleBlockAt gx gy = some tb → tb.isSolid = false →
      s.isPlayerTrappedOnToggleBlock gx gy = false) ∧
    (∀ (input : Input) (p : Player), p.isTrapped = true →
      p.handleInput input s = ⟨p, s, []⟩) ∧
    (∀ (dt : ℝ) (input : Input) (p : Player) (hasGame : Bool),
      p.isDefeated = false → p.isVictorious = false → p.isTeleporting = false →
      p.isMoving = false →
      s.getTileAt p.getGridX p.getGridY = TileType.TOGGLE_BLOCK →
      s.getToggleBlockAt p.getGridX p.getGridY = some tb → tb.isSolid = true →
      (p.update dt input s hasGame).player.isTrapped = true ∧
      (p.update dt input s hasGame).player.x = p.x ∧
      (p.update dt input s hasGame).player.y = p.y ∧
      (p.update dt input s hasGame).player.isMoving = false) := by
  refine ⟨isPlayerTrapped_true s gx gy tb,
    isPlayerTrapped_false_of_not_toggle s gx gy,
    isPlayerTrapped_false_of_passable s gx gy tb,
    fun input p h => handleInput_trapped p input s h, ?_⟩
  intro dt input p hasGame hdef hvic htel hmov htile hblk hsolid
  have htr : s.isPlayerTrappedOnToggleBlock p.getGridX p.getGridY = true :=
    isPlayerTrapped_true s _ _ tb htile hblk hsolid
  have hca : ({ p with isTrapped := true } : Player).checkArrowTile s =
      { p with isTrapped := true } :=
    checkArrowTile_toggle _ s htile
  have hhi : ({ p with isTrapped := true } : Player).handleInput input s =
      ⟨{ p with isTrapped := true }, s, []⟩ :=
    handleInput_trapped _ input s rfl
  have hmovlit : ¬({ p with isTrapped := true } : Player).isMoving = true := by
    simp [hmov]
  have hmstage : Player.updateMovementStage { p with isTrapped := true } input s =
      ⟨{ p with isTrapped := true }, s, []⟩ := by
    simp only [Player.updateMovementStage]
    rw [hca, if_pos hmovlit, if_pos hmovlit, hhi]
  have ha := updateActionStage_fields input hasGame
    ({ p with isTrapped := true }) s
  have ht2 := updateTimersStage_fields dt
    (Player.updateActionStage input hasGame ({ p with isTrapped := true }) s).player
  have hdef' : ¬p.isDefeated = true := by simp [hdef]
  have hvic' : ¬p.isVictorious = true := by simp [hvic]
  have htel' : ¬p.isTeleporting = true := by simp [htel]
  have hp0 : ({ p with isTrapped :=
      s.isPlayerTrappedOnToggleBlock p.getGridX p.getGridY } : Player) =
      { p with isTrapped := true } := by rw [htr]
  simp only [Player.update]
  rw [if_neg hdef', if_neg hvic', if_neg htel', hp0, hmstage]
  exact ⟨by simp only [ht2.1, ha.1],
    by simp only [ht2.2.1, ha.2.1],
    by simp only [ht2.2.2.1, ha.2.2.1],
    by simp only [ht2.2.2.2, ha.2.2.2]; simp [hmov]⟩

/-- Witness for C6: a player standing on the solid toggle block at `(2, 2)` of
`c6State` is trapped, and a tick with the up key held leaves it in place. -/
theorem C6_toggle_trap_witness :
    c6State.isPlayerTrappedOnToggleBlock 2 2 = true ∧
    ((mkPlayer 64 64).update (1/60) ⟨true, false, false, false, false⟩ c6State
      true).player.isTrapped = true ∧
    ((mkPlayer 64 64).update (1/60) ⟨true, false, false, false, false⟩ c6State
      true).player.x = 64 ∧
    ((mkPlayer 64 64).update (1/60) ⟨true, false, false, false, false⟩ c6State
      true).player.isMoving = false := by
  have hgx : (mkPlayer 64 64).getGridX = 2 := by
    show (⌊(64 : ℝ) / 32⌋ : Int) = 2
    norm_num
  have hgy : (mkPlayer 64 64).getGridY = 2 := by
    show (⌊(64 : ℝ) / 32⌋ : Int) = 2
    norm_num
  have htile : c6State.getTileAt (mkPlayer 64 64).getGridX
      (mkPlayer 64 64).getGridY = TileType.TOGGLE_BLOCK := by
    rw [hgx, hgy]
    decide
  have hblk : c6State.getToggleBlockAt (mkPlayer 64 64).getGridX
      (mkPlayer 64 64).getGridY = some ⟨2, 2, true, false, 0⟩ := by
    rw [hgx, hgy]
    rfl
  have h := C6_toggle_trap c6State 2 2 ⟨2, 2, true, false, 0⟩
  have he := h.2.2.2.2 (1/60) ⟨true, false, false, false, false⟩
    (mkPlayer 64 64) true rfl rfl rfl rfl htile hblk rfl
  exact ⟨h.1 (by decide) rfl rfl, he.1, he.2.1, he.2.2.2⟩


lemma velocityMagnitude_cos_sin (a s : ℝ) (hs : 0 ≤ s) :
    velocityMagnitude (Real.cos a * s) (Real.sin a * s) = s := by
  unfold velocityMagnitude
  rw [show Real.cos a * s * (Real.cos a * s) + Real.sin a * s * (Real.sin a * s)
      = (Real.sin a ^ 2 + Real.cos a ^ 2) * s ^ 2 by ring,
    Real.sin_sq_add_cos_sq, one_mul, Real.sqrt_sq hs]

lemma velocityMagnitude_neg_abs_left (vx vy : ℝ) :
    velocityMagnitude (-|vx|) vy = velocityMagnitude vx vy := by
  unfold velocityMagnitude
  rw [show -|vx| * -|vx| = vx * vx by rw [neg_mul_neg, abs_mul_abs_self]]

lemma velocityMagnitude_abs_left (vx vy : ℝ) :
    velocityMagnitude |vx| vy = velocityMagnitude vx vy := by
  unfold velocityMagnitude
  rw [abs_mul_abs_self]

lemma velocityMagnitude_neg_abs_right (vx vy : ℝ) :
    velocityMagnitude vx (-|vy|) = velocityMagnitude vx vy := by
  unfold velocityMagnitude
  rw [show -|vy| * -|vy| = vy * vy by rw [neg_mul_neg, abs_mul_abs_self]]

lemma velocityMagnitude_abs_right (vx vy : ℝ) :
    velocityMagnitude vx |vy| = velocityMagnitude vx vy := by
  unfold velocityMagnitude
  rw [abs_mul_abs_self]

lemma calculateBounceAngle_mag (b : Ball) (rand bc cc bs : ℝ) (ih : Bool)
    (hs : 0 ≤ b.speed) :
    velocityMagnitude (b.calculateBounceAngle rand bc cc bs ih).1
      (b.calculateBounceAngle rand bc cc bs ih).2 = b.speed := by
  simp only [Ball.calculateBounceAngle]
  exact velocityMagnitude_cos_sin _ _ hs

lemma checkTeleportTile_vfields (b : Ball) (lm : LevelState) :
    (b.checkTeleportTile lm).vx = b.vx ∧ (b.checkTeleportTile lm).vy = b.vy ∧
    (b.checkTeleportTile lm).speed = b.speed := by
  simp only [Ball.checkTeleportTile]
  split
  · exact ⟨rfl, rfl, rfl⟩
  · split
    · split
      · exact ⟨rfl, rfl, rfl⟩
      · exact ⟨rfl, rfl, rfl⟩
    · exact ⟨rfl, rfl, rfl⟩

lemma updateCooldown_vfields (b : Ball) (dt : ℝ) :
    (b.updateCooldown dt).vx = b.vx ∧ (b.updateCooldown dt).vy = b.vy ∧
    (b.updateCooldown dt).speed = b.speed := by
  simp only [Ball.updateCooldown]
  split
  · exact ⟨rfl, rfl, rfl⟩
  · exact ⟨rfl, rfl, rfl⟩

lemma updateTeleport_vfields (b : Ball) (dt : ℝ) :
    (b.updateTeleport dt).vx = b.vx ∧ (b.updateTeleport dt).vy = b.vy ∧
    (b.updateTeleport dt).speed = b.speed := by
  simp only [Ball.updateTeleport]
  repeat' split
  all_goals exact ⟨rfl, rfl, rfl⟩

lemma moveH_mag (b : Ball) (lm : LevelState) (r : ℝ)
    (hinv : velocityMagnitude b.vx b.vy = b.speed) (hs : 0 ≤ b.speed) :
    velocityMagnitude (b.moveH lm r).vx (b.moveH lm r).vy = (b.moveH lm r).speed ∧
    (b.moveH lm r).speed = b.speed := by
  simp only [Ball.moveH]
  split
  · split
    · exact ⟨(velocityMagnitude_neg_abs_left _ _).trans hinv, rfl⟩
    · split
      · exact ⟨calculateBounceAngle_mag _ _ _ _ _ _ hs, rfl⟩
      · exact ⟨hinv, rfl⟩
  · split
    · split
      · exact ⟨(velocityMagnitude_abs_left _ _).trans hinv, rfl⟩
      · split
        · exact ⟨calculateBounceAngle_mag _ _ _ _ _ _ hs, rfl⟩
        · exact ⟨hinv, rfl⟩
    · exact ⟨hinv, rfl⟩

lemma moveV_mag (b : Ball) (lm : LevelState) (r : ℝ)
    (hinv : velocityMagnitude b.vx b.vy = b.speed) (hs : 0 ≤ b.speed) :
    velocityMagnitude (b.moveV lm r).vx (b.moveV lm r).vy = (b.moveV lm r).speed ∧
    (b.moveV lm r).speed = b.speed := by
  simp only [Ball.moveV]
  split
  · split
    · exact ⟨(velocityMagnitude_neg_abs_right _ _).trans hinv, rfl⟩
    · split
      · exact ⟨calculateBounceAngle_mag _ _ _ _ _ _ hs, rfl⟩
      · exact ⟨hinv, rfl⟩
  · split
    · split
      · exact ⟨(velocityMagnitude_abs_right _ _).trans hinv, rfl⟩
      · split
        · exact ⟨calculateBounceAngle_mag _ _ _ _ _ _ hs, rfl⟩
        · exact ⟨hinv, rfl⟩
    · exact ⟨hinv, rfl⟩

lemma update_mag (b : Ball) (dt : ℝ) (lm : LevelState) (randH randV : ℝ)
    (hinv : velocityMagnitude b.vx b.vy = b.speed) :
    velocityMagnitude (b.update dt lm randH randV).vx
        (b.update dt lm randH randV).vy = (b.update dt lm randH randV).speed ∧
    (b.update dt lm randH randV).speed = b.speed := by
  have hs0 : 0 ≤ b.speed := hinv ▸ Real.sqrt_nonneg _
  obtain ⟨hcx, hcy, hcs⟩ := updateCooldown_vfields b dt
  have hinv0 : velocityMagnitude (b.updateCooldown dt).vx
      (b.updateCooldown dt).vy = (b.updateCooldown dt).speed := by
    rw [hcx, hcy, hcs]; exact hinv
  simp only [Ball.update]
  split
  · obtain ⟨htx, hty, hts⟩ := updateTeleport_vfields (b.updateCooldown dt) dt
    rw [htx, hty, hts, hcx, hcy, hcs]
    exact ⟨hinv, rfl⟩
  · split
    · rw [hcx, hcy, hcs]
      exact ⟨hinv, rfl⟩
    · obtain ⟨hkx, hky, hks⟩ := checkTeleportTile_vfields
        ((({b.updateCooldown dt with
            x := (b.updateCooldown dt).x + (b.updateCooldown dt).vx,
            y := (b.updateCooldown dt).y + (b.updateCooldown dt).vy} :
          Ball).moveH lm randH).moveV lm randV) lm
      rw [hkx, hky, hks]
      have hinv1 : velocityMagnitude
          ({b.updateCooldown dt with
            x := (b.updateCooldown dt).x + (b.updateCooldown dt).vx,
            y := (b.updateCooldown dt).y + (b.updateCooldown dt).vy} : Ball).vx
          ({b.updateCooldown dt with
            x := (b.updateCooldown dt).x + (b.updateCooldown dt).vx,
            y := (b.updateCooldown dt).y + (b.updateCooldown dt).vy} : Ball).vy
          = ({b.updateCooldown dt with
            x := (b.updateCooldown dt).x + (b.updateCooldown dt).vx,
            y := (b.updateCooldown dt).y + (b.updateCooldown dt).vy} : Ball).speed :=
        hinv0
      have hs1 : 0 ≤ ({b.updateCooldown dt with
            x := (b.updateCooldown dt).x + (b.updateCooldown dt).vx,
            y := (b.updateCooldown dt).y + (b.updateCooldown dt).vy} : Ball).speed := by
        rw [show ({b.updateCooldown dt with
            x := (b.updateCooldown dt).x + (b.updateCooldown dt).vx,
            y := (b.updateCooldown dt).y + (b.updateCooldown dt).vy} :
          Ball).speed = b.speed from hcs]
        exact hs0
      obtain ⟨hH, hHs⟩ := moveH_mag _ lm randH hinv1 hs1
      have hsH : 0 ≤ (({b.updateCooldown dt with
            x := (b.updateCooldown dt).x + (b.updateCooldown dt).vx,
            y := (b.updateCooldown dt).y + (b.updateCooldown dt).vy} :
          Ball).moveH lm randH).speed := by rw [hHs]; exact hs1
      obtain ⟨hV, hVs⟩ := moveV_mag _ lm randV hH hsH
      exact ⟨hV, by rw [hVs, hHs, hcs]⟩

/-- C3: Speed invariance. (i) `Ball.calculateBounceAngle` always returns a
velocity vector whose magnitude is exactly the ball's stored speed, for any
incoming velocity, any impact offset, either collision axis and any random
draw, whenever the stored speed is nonnegative; (ii) a freshly constructed
ball satisfies the invariant that the magnitude of `(vx, vy)` equals the
stored speed (which is nonnegative, being a square root); (iii) a full
`Ball.update` tick - tile bounces on any of the four axes and canvas-boundary
reflections alike - preserves that invariant and never changes the stored
speed, so the velocity magnitude after every bounce equals the velocity
magnitude before it. -/
theorem C3_speed_invariance :
    (∀ (b : Ball) (rand bc cc bs : ℝ) (ih : Bool), 0 ≤ b.speed →
      velocityMagnitude (b.calculateBounceAngle rand bc cc bs ih).1
        (b.calculateBounceAngle rand bc cc bs ih).2 = b.speed) ∧
    (∀ (gx gy : Int) (vx vy : ℝ),
      velocityMagnitude (mkBall gx gy vx vy).vx (mkBall gx gy vx vy).vy
        = (mkBall gx gy vx vy).speed) ∧
    (∀ (b : Ball) (dt : ℝ) (lm : LevelState) (randH randV : ℝ),
      velocityMagnitude b.vx b.vy = b.speed →
      velocityMagnitude (b.update dt lm randH randV).vx
          (b.update dt lm randH randV).vy = (b.update dt lm randH randV).speed ∧
      (b.update dt lm randH randV).speed = b.speed) :=
  ⟨fun b rand bc cc bs ih hs => calculateBounceAngle_mag b rand bc cc bs ih hs,
   fun _ _ _ _ => rfl,
   fun b dt lm rH rV hinv => update_mag b dt lm rH rV hinv⟩

/-- Witness for C3 at the concrete ball `c3Ball` with velocity `(3, 4)` and
stored speed `5`, bounced and ticked against the wall level `wState`. -/
theorem C3_speed_invariance_witness :
    velocityMagnitude c3Ball.vx c3Ball.vy = c3Ball.speed ∧
    velocityMagnitude (c3Ball.calculateBounceAngle 0.5 20 16 32 true).1
      (c3Ball.calculateBounceAngle 0.5 20 16 32 true).2 = c3Ball.speed ∧
    velocityMagnitude (c3Ball.update (1/60) wState 0.5 0.5).vx
        (c3Ball.update (1/60) wState 0.5 0.5).vy
      = (c3Ball.update (1/60) wState 0.5 0.5).speed ∧
    (c3Ball.update (1/60) wState 0.5 0.5).speed = c3Ball.speed := by
  have hmag : velocityMagnitude c3Ball.vx c3Ball.vy = c3Ball.speed := by
    show Real.sqrt ((3 : ℝ) * 3 + 4 * 4) = 5
    rw [show (3 : ℝ) * 3 + 4 * 4 = 5 ^ 2 by norm_num, Real.sqrt_sq (by norm_num)]
  have hs : (0 : ℝ) ≤ c3Ball.speed := by
    show (0 : ℝ) ≤ 5
    norm_num
  have h3 := C3_speed_invariance.2.2 c3Ball (1/60) wState 0.5 0.5 hmag
  exact ⟨hmag, C3_speed_invariance.1 c3Ball 0.5 20 16 32 true hs, h3.1, h3.2⟩

lemma normalizeAngle_eq_sub (θ : ℝ) (k : ℤ)
    (h0 : 0 ≤ θ - 2 * Real.pi * k) (h1 : θ - 2 * Real.pi * k < 2 * Real.pi) :
    normalizeAngle θ = θ - 2 * Real.pi * k := by
  unfold normalizeAngle
  have h2p : (0 : ℝ) < 2 * Real.pi := by positivity
  have hfl : ⌊θ / (2 * Real.pi)⌋ = k := by
    rw [Int.floor_eq_iff]
    constructor
    · rw [le_div_iff₀ h2p]
      nlinarith
    · rw [div_lt_iff₀ h2p]
      nlinarith
  rw [hfl]

lemma angularDistance_ge_of (a c : ℝ) (k : ℤ)
    (h0 : 0 ≤ a - c - 2 * Real.pi * k)
    (h1 : a - c - 2 * Real.pi * k < 2 * Real.pi)
    (hlo : Real.pi / 4 ≤ a - c - 2 * Real.pi * k)
    (hhi : a - c - 2 * Real.pi * k ≤ 2 * Real.pi - Real.pi / 4) :
    Real.pi / 4 ≤ angularDistance a c := by
  unfold angularDistance
  rw [show a - c - 2 * Real.pi * (k : ℝ) = (a - c) - 2 * Real.pi * (k : ℝ)
    from rfl] at h0 h1 hlo hhi
  rw [normalizeAngle_eq_sub (a - c) k h0 h1]
  exact le_min hlo (by linarith)

lemma clamp_mem_diagonals (x : ℝ) :
    clampAwayFromCardinals x = Real.pi / 4 ∨
    clampAwayFromCardinals x = 3 * Real.pi / 4 ∨
    clampAwayFromCardinals x = 5 * Real.pi / 4 ∨
    clampAwayFromCardinals x = 7 * Real.pi / 4 := by
  simp only [clampAwayFromCardinals]
  split_ifs
  all_goals
    first
    | exact Or.inl (by linarith)
    | exact Or.inr (Or.inl (by linarith))
    | exact Or.inr (Or.inr (Or.inl (by linarith)))
    | exact Or.inr (Or.inr (Or.inr (by linarith)))

/-- C4: Angle exclusion. For any incoming angle (hence for any incoming
velocity and any clamped impact offset fed to `Ball.calculateBounceAngle`),
the corrected angle - the value after normalization and forbidden-zone
clamping, before the random perturbation is added - is always one of the four
diagonals π/4, 3π/4, 5π/4, 7π/4, and its angular distance from each of the
cardinal directions 0, π/2, π, 3π/2 is at least 45° (π/4); moreover the
random perturbation subsequently added is bounded by
`BALL_ANGLE_RANDOMNESS = π/8` in absolute value for any draw in `[0, 1]`. -/
theorem C4_angle_exclusion (θ : ℝ) :
    (correctedBounceAngle θ = Real.pi / 4 ∨
     correctedBounceAngle θ = 3 * Real.pi / 4 ∨
     correctedBounceAngle θ = 5 * Real.pi / 4 ∨
     correctedBounceAngle θ = 7 * Real.pi / 4) ∧
    (∀ c : ℝ, c = 0 ∨ c = Real.pi / 2 ∨ c = Real.pi ∨ c = 3 * Real.pi / 2 →
      Real.pi / 4 ≤ angularDistance (correctedBounceAngle θ) c) ∧
    (∀ rand : ℝ, 0 ≤ rand → rand ≤ 1 →
      |(rand - 0.5) * 2 * CONFIG.BALL_ANGLE_RANDOMNESS| ≤ Real.pi / 8) := by
  have hd := clamp_mem_diagonals (normalizeAngle θ)
  have hcb : correctedBounceAngle θ = clampAwayFromCardinals (normalizeAngle θ) := rfl
  rw [← hcb] at hd
  refine ⟨hd, ?_, ?_⟩
  · intro c hc
    rcases hd with h | h | h | h <;> rcases hc with rfl | rfl | rfl | rfl <;> rw [h]
    all_goals
      first
      | exact angularDistance_ge_of _ _ 0 (by push_cast; linarith [Real.pi_pos])
          (by push_cast; linarith [Real.pi_pos]) (by push_cast; linarith [Real.pi_pos])
          (by push_cast; linarith [Real.pi_pos])
      | exact angularDistance_ge_of _ _ (-1) (by push_cast; linarith [Real.pi_pos])
          (by push_cast; linarith [Real.pi_pos]) (by push_cast; linarith [Real.pi_pos])
          (by push_cast; linarith [Real.pi_pos])
  · intro rand h0 h1
    simp only [CONFIG.BALL_ANGLE_RANDOMNESS]
    rw [abs_le]
    constructor <;> nlinarith [Real.pi_pos]

/-- Witness for C4 at the incoming angle `0`, the cardinal `0` and the random
draw `1`. -/
theorem C4_angle_exclusion_witness :
    (correctedBounceAngle 0 = Real.pi / 4 ∨
     correctedBounceAngle 0 = 3 * Real.pi / 4 ∨
     correctedBounceAngle 0 = 5 * Real.pi / 4 ∨
     correctedBounceAngle 0 = 7 * Real.pi / 4) ∧
    Real.pi / 4 ≤ angularDistance (correctedBounceAngle 0) 0 ∧
    |((1 : ℝ) - 0.5) * 2 * CONFIG.BALL_ANGLE_RANDOMNESS| ≤ Real.pi / 8 := by
  have h := C4_angle_exclusion 0
  exact ⟨h.1, h.2.1 0 (Or.inl rfl), h.2.2 1 (by norm_num) (by norm_num)⟩

end Snoopy
